import Mathlib

/-!
Multicluster observability addon: health checker and logging values.

A shallow embedding of

* `internal/addon/addon.go`: `GetObjectKeys` and the `HealthChecker` closure of
  `AgentHealthProber`;
* `internal/logging/manifests/values.go`: `BuildValues`, `enabledLogging`,
  `buildUnmangedValues`, `buildMangedValues`.

Go slices are lists (a nil slice and an empty slice are both `[]`), Go pointers that may
be nil are `Option`, and a Go `error` result is an `Option` whose `none` is `nil`.
-/

namespace Addon

/-- Go `string`; the alias keeps the type reachable below fields that are named `String`. -/
abbrev GoString : Type := String

/-- Go `int64`. The checker only compares the number with `1` and prints it, so no
arithmetic can overflow and the unbounded integers are used. -/
abbrev GoInt64 : Type := Int

/-- The type `workv1.ResourceIdentifier`. -/
structure ResourceIdentifier where
  Group : GoString
  Resource : GoString
  Name : GoString
  Namespace : GoString
  deriving DecidableEq, Repr

/-- The type `workv1.FieldValue`: a type tag and one nullable pointer per kind of value
(the tag, `Type` in Go, is spelled `Typ` because `Type` is reserved). -/
structure FieldValue where
  Typ : GoString
  Integer : Option GoInt64
  String : Option GoString
  Boolean : Option Bool
  JsonRaw : Option GoString
  deriving DecidableEq, Repr

/-- The type `workv1.FeedbackValue`. -/
structure FeedbackValue where
  Name : GoString
  Value : FieldValue
  deriving DecidableEq, Repr

/-- The type `workv1.StatusFeedbackResult`. -/
structure StatusFeedbackResult where
  Values : List FeedbackValue
  deriving DecidableEq, Repr

/-- The type `agent.ResultField`. -/
structure ResultField where
  ResourceIdentifier : ResourceIdentifier
  FeedbackResult : StatusFeedbackResult
  deriving DecidableEq, Repr

/-- The package constants that `addon.go` reads and that are declared in another file of
the package: the two resource names and the two probe keys. They are parameters of the
embedding. -/
structure ProbeConstants where
  ClusterLogForwardersResource : GoString
  clfProbeKey : GoString
  OpenTelemetryCollectorsResource : GoString
  otelColProbeKey : GoString
  deriving DecidableEq, Repr

/-- The five sentinel errors declared at the top of `addon.go`. -/
inductive Sentinel where
  | errMissingFields
  | errProbeConditionNotSatisfied
  | errProbeValueIsNil
  | errUnknownProbeKey
  | errUnknownResource
  deriving DecidableEq, Repr

/-- The text given to `errors.New` for each sentinel. -/
def Sentinel.Error : Sentinel → GoString
  | .errMissingFields => "no fields found in health checker"
  | .errProbeConditionNotSatisfied => "probe condition is not satisfied"
  | .errProbeValueIsNil => "probe value is nil"
  | .errUnknownProbeKey => "probe has key that doesn't match the key defined"
  | .errUnknownResource => "undefined health check for resource"

/-- A non-nil Go `error` produced by the checker: the sentinel that `errors.Is` finds in
it and its message. -/
structure ProbeError where
  sentinel : Sentinel
  message : GoString
  deriving DecidableEq, Repr

/-- A bare sentinel, returned unwrapped. -/
def bare (s : Sentinel) : ProbeError := ⟨s, s.Error⟩

/-- The call `fmt.Errorf("%w<rest>", s, ...)`, where `rest` is the formatted remainder. -/
def wrap (s : Sentinel) (rest : GoString) : ProbeError := ⟨s, s.Error ++ rest⟩

/-- The reason of a verdict: the sentinel of the error, `none` for a nil error. -/
def reason (verdict : Option ProbeError) : Option Sentinel := verdict.map ProbeError.sentinel

/-- The inner loop of the `ClusterLogForwardersResource` case (addon.go lines 107-120):
the first failing value decides, `none` when the loop runs to its end. -/
def checkCLFValues (c : ProbeConstants) (identifier : ResourceIdentifier) :
    List FeedbackValue → Option ProbeError
  | [] => none
  | value :: rest =>
    if value.Name ≠ c.clfProbeKey then
      some (wrap .errUnknownProbeKey
        (": " ++ identifier.Resource ++ " with key " ++ identifier.Namespace ++ "/" ++
          identifier.Name ++ " unknown probe keys " ++ value.Name))
    else
      match value.Value.String with
      | none =>
        some (wrap .errProbeValueIsNil
          (": " ++ identifier.Resource ++ " with key " ++ identifier.Namespace ++ "/" ++
            identifier.Name))
      | some s =>
        if s ≠ "True" then
          some (wrap .errProbeConditionNotSatisfied
            (": " ++ identifier.Resource ++ " status condition type is " ++ s ++ " for " ++
              identifier.Namespace ++ "/" ++ identifier.Name))
        else checkCLFValues c identifier rest

/-- The inner loop of the `OpenTelemetryCollectorsResource` case (addon.go lines
122-135). -/
def checkOTELColValues (c : ProbeConstants) (identifier : ResourceIdentifier) :
    List FeedbackValue → Option ProbeError
  | [] => none
  | value :: rest =>
    if value.Name ≠ c.otelColProbeKey then
      some (wrap .errUnknownProbeKey
        (": " ++ identifier.Resource ++ " with key " ++ identifier.Namespace ++ "/" ++
          identifier.Name ++ " unknown probe keys " ++ value.Name))
    else
      match value.Value.Integer with
      | none =>
        some (wrap .errProbeValueIsNil
          (": " ++ identifier.Resource ++ " with key " ++ identifier.Namespace ++ "/" ++
            identifier.Name))
      | some n =>
        if n < 1 then
          some (wrap .errProbeConditionNotSatisfied
            (": " ++ identifier.Resource ++ " replicas is " ++ toString n ++ " for " ++
              identifier.Namespace ++ "/" ++ identifier.Name))
        else checkOTELColValues c identifier rest

/-- The body of the loop over the fields (addon.go lines 100-139) for one field: `some e`
when the body returns the error `e`, `none` when it reaches the next iteration (by the
`continue` of a field without values, or by leaving the `switch`). -/
def checkField (c : ProbeConstants) (field : ResultField) : Option ProbeError :=
  if field.FeedbackResult.Values.length = 0 then none
  else
    let identifier := field.ResourceIdentifier
    if identifier.Resource = c.ClusterLogForwardersResource then
      checkCLFValues c identifier field.FeedbackResult.Values
    else if identifier.Resource = c.OpenTelemetryCollectorsResource then
      checkOTELColValues c identifier field.FeedbackResult.Values
    else
      some (wrap .errUnknownResource
        (": " ++ identifier.Resource ++ " with key " ++ identifier.Namespace ++ "/" ++
          identifier.Name))

/-- The loop over the fields (addon.go lines 99-141): the first field whose body returns
an error decides, and the function returns nil after the last field. -/
def checkFields (c : ProbeConstants) : List ResultField → Option ProbeError
  | [] => none
  | field :: rest =>
    match checkField c field with
    | some e => some e
    | none => checkFields c rest

/-- The `HealthChecker` closure of `AgentHealthProber` (addon.go lines 95-142). -/
def HealthChecker (c : ProbeConstants) (fields : List ResultField) : Option ProbeError :=
  if fields.length = 0 then some (bare .errMissingFields)
  else checkFields c fields

/-- One choice of the four package constants, with two different resource names, at
which the theorems below are instantiated. -/
def sampleConstants : ProbeConstants :=
  { ClusterLogForwardersResource := "clusterlogforwarders"
    clfProbeKey := "isReady"
    OpenTelemetryCollectorsResource := "opentelemetrycollectors"
    otelColProbeKey := "replicas" }

/-- A field with the given resource name and values, located in `ns/name`. -/
def sampleField (resource : GoString) (values : List FeedbackValue) : ResultField :=
  { ResourceIdentifier :=
      { Group := "g", Resource := resource, Name := "name", Namespace := "ns" }
    FeedbackResult := { Values := values } }

/-- A value that carries only a string. -/
def stringValue (name s : GoString) : FeedbackValue :=
  { Name := name
    Value := { Typ := "String", Integer := none, String := some s, Boolean := none,
               JsonRaw := none } }

/-- A value that carries only an integer. -/
def integerValue (name : GoString) (n : GoInt64) : FeedbackValue :=
  { Name := name
    Value := { Typ := "Integer", Integer := some n, String := none, Boolean := none,
               JsonRaw := none } }

/-- The type `addonapiv1alpha1.ConfigGroupResource`. -/
structure ConfigGroupResource where
  Group : GoString
  Resource : GoString
  deriving DecidableEq, Repr

/-- The type `addonapiv1alpha1.ConfigReferent`. -/
structure ConfigReferent where
  Namespace : GoString
  Name : GoString
  deriving DecidableEq, Repr

/-- The type `addonapiv1alpha1.ConfigSpecHash`. -/
structure ConfigSpecHash where
  ConfigReferent : ConfigReferent
  SpecHash : GoString
  deriving DecidableEq, Repr

/-- The type `addonapiv1alpha1.ConfigReference`; the two embedded structs are fields, so
`config.Name` of the source is `config.ConfigReferent.Name` here. -/
structure ConfigReference where
  ConfigGroupResource : ConfigGroupResource
  ConfigReferent : ConfigReferent
  LastObservedGeneration : GoInt64
  DesiredConfig : Option ConfigSpecHash
  LastAppliedConfig : Option ConfigSpecHash
  deriving DecidableEq, Repr

/-- The type `client.ObjectKey` (a namespaced name). -/
structure ObjectKey where
  Namespace : GoString
  Name : GoString
  deriving DecidableEq, Repr

/-- The loop of `GetObjectKeys` (addon.go lines 33-45), started with the keys collected so
far. -/
def GetObjectKeys.loop (group resource : GoString) :
    List ConfigReference → List ObjectKey → List ObjectKey
  | [], keys => keys
  | config :: rest, keys =>
    if config.ConfigGroupResource.Group ≠ group then GetObjectKeys.loop group resource rest keys
    else if config.ConfigGroupResource.Resource ≠ resource then
      GetObjectKeys.loop group resource rest keys
    else
      GetObjectKeys.loop group resource rest
        (keys ++ [{ Name := config.ConfigReferent.Name
                    Namespace := config.ConfigReferent.Namespace }])

/-- The function `GetObjectKeys` (addon.go lines 31-47). -/
def GetObjectKeys (configRef : List ConfigReference) (group resource : GoString) :
    List ObjectKey :=
  GetObjectKeys.loop group resource configRef []

/-- What the applicable rule reads of a value, following the wording of the
specification rather than the code: its `Name`, its `String` when the field is a
log-forwarder field, and its `Integer` when the field is a trace-collector field. -/
def readOfValue (c : ProbeConstants) (resource : GoString) (value : FeedbackValue) :
    GoString × Option GoString × Option GoInt64 :=
  (value.Name,
    if resource = c.ClusterLogForwardersResource then value.Value.String else none,
    if resource = c.OpenTelemetryCollectorsResource then value.Value.Integer else none)

/-- What the checker is said to read of a field: its `Resource` and, for each of its
values in order, what `readOfValue` keeps. `Group`, `Name`, `Namespace` and the other
parts of a value are left out. -/
def readOfField (c : ProbeConstants) (field : ResultField) :
    GoString × List (GoString × Option GoString × Option GoInt64) :=
  (field.ResourceIdentifier.Resource,
    field.FeedbackResult.Values.map (readOfValue c field.ResourceIdentifier.Resource))

/-- Whether a config reference is one that `GetObjectKeys` is asked for: both its group
and its resource are the given ones. -/
def matchesGroupResource (group resource : GoString) (config : ConfigReference) : Bool :=
  decide (config.ConfigGroupResource.Group = group) &&
    decide (config.ConfigGroupResource.Resource = resource)

/-- The key of a config reference: its name and namespace. -/
def keyOf (config : ConfigReference) : ObjectKey :=
  { Name := config.ConfigReferent.Name, Namespace := config.ConfigReferent.Namespace }

/-- A config reference with the given group, resource, namespace and name. -/
def sampleReference (group resource ns name : GoString) : ConfigReference :=
  { ConfigGroupResource := { Group := group, Resource := resource }
    ConfigReferent := { Namespace := ns, Name := name }
    LastObservedGeneration := 0
    DesiredConfig := none
    LastAppliedConfig := none }

end Addon

namespace Manifests

/-- The type `ResourceValue` of values.go. -/
structure ResourceValue where
  Name : String
  Data : String
  deriving DecidableEq, Repr

/-- The type `CollectionValues` of values.go. -/
structure CollectionValues where
  Enabled : Bool
  CLFAnnotations : String
  CLFSpec : String
  Secrets : List ResourceValue
  ConfigMaps : List ResourceValue
  deriving DecidableEq, Repr

/-- The type `StorageValues` of values.go. -/
structure StorageValues where
  Enabled : Bool
  Secrets : List ResourceValue
  LSSpec : String
  deriving DecidableEq, Repr

/-- The type `UnmanagedValues` of values.go. -/
structure UnmanagedValues where
  Collection : CollectionValues
  deriving DecidableEq, Repr

/-- The type `ManagedValues` of values.go. -/
structure ManagedValues where
  Collection : CollectionValues
  Storage : StorageValues
  deriving DecidableEq, Repr

/-- The type `LoggingValues` of values.go. -/
structure LoggingValues where
  Enabled : Bool
  OpenshiftLoggingChannel : String
  Unmanaged : UnmanagedValues
  Managed : ManagedValues
  deriving DecidableEq, Repr

/-- The Go zero value `CollectionValues{}`. -/
def CollectionValues.zero : CollectionValues :=
  { Enabled := false, CLFAnnotations := "", CLFSpec := "", Secrets := [], ConfigMaps := [] }

/-- The Go zero value `StorageValues{}`. -/
def StorageValues.zero : StorageValues :=
  { Enabled := false, Secrets := [], LSSpec := "" }

/-- The Go zero value `UnmanagedValues{}`. -/
def UnmanagedValues.zero : UnmanagedValues :=
  { Collection := CollectionValues.zero }

/-- The Go zero value `ManagedValues{}`. -/
def ManagedValues.zero : ManagedValues :=
  { Collection := CollectionValues.zero, Storage := StorageValues.zero }

/-- What values.go uses and does not define: the type `Options` with its two methods and
its field `IsHubCluster`, the error type, the helper functions of the package and
`json.Marshal` at each of the four types it is called at. A helper that returns
`(value, err)` is a function into `Except`; its value is read only when `err` is nil. -/
structure Collaborators where
  Options : Type
  Error : Type
  Annotations : Type
  CLFSpec : Type
  ManagedCLFSpec : Type
  LokistackSpec : Type
  UnmanagedCollectionEnabled : Options → Bool
  DefaultStackEnabled : Options → Bool
  IsHubCluster : Options → Bool
  buildSubscriptionChannel : Options → String
  buildConfigMaps : Options → Except Error (List ResourceValue)
  buildSecrets : Options → Except Error (List ResourceValue)
  GetAnnotations : Options → Annotations
  marshalAnnotations : Annotations → Except Error String
  buildClusterLogForwarderSpec : Options → Except Error CLFSpec
  marshalCLFSpec : CLFSpec → Except Error String
  buildManagedCollectionConfigMaps : Options → Except Error (List ResourceValue)
  buildManagedCollectionSecrets : Options → Except Error (List ResourceValue)
  buildManagedCLFSpec : Options → Except Error ManagedCLFSpec
  marshalManagedCLFSpec : ManagedCLFSpec → Except Error String
  buildManagedStorageSecrets : Options → Except Error (List ResourceValue)
  buildManagedLokistackSpec : Options → Except Error LokistackSpec
  marshalLokistackSpec : LokistackSpec → Except Error String

/-- The function `enabledLogging` (values.go lines 65-67). -/
def enabledLogging (k : Collaborators) (opts : k.Options) : Bool :=
  k.UnmanagedCollectionEnabled opts || k.DefaultStackEnabled opts

/-- The function `buildUnmangedValues` (values.go lines 69-113). The result is the Go pair
`(UnmanagedValues, error)`: on an error the source returns `uValues` as filled so far. -/
def buildUnmangedValues (k : Collaborators) (opts : k.Options) :
    UnmanagedValues × Option k.Error :=
  if !k.UnmanagedCollectionEnabled opts then (UnmanagedValues.zero, none)
  else
    let uValues : UnmanagedValues :=
      { Collection := { CollectionValues.zero with Enabled := true } }
    match k.buildConfigMaps opts with
    | .error err => (uValues, some err)
    | .ok configmaps =>
      let uValues : UnmanagedValues :=
        { uValues with Collection := { uValues.Collection with ConfigMaps := configmaps } }
      match k.buildSecrets opts with
      | .error err => (uValues, some err)
      | .ok secrets =>
        let uValues : UnmanagedValues :=
          { uValues with Collection := { uValues.Collection with Secrets := secrets } }
        let clfAnnotations := k.GetAnnotations opts
        match k.marshalAnnotations clfAnnotations with
        | .error err => (uValues, some err)
        | .ok clfAnnotationsJson =>
          let uValues : UnmanagedValues :=
            { uValues with
              Collection := { uValues.Collection with CLFAnnotations := clfAnnotationsJson } }
          match k.buildClusterLogForwarderSpec opts with
          | .error err => (uValues, some err)
          | .ok clfSpec =>
            match k.marshalCLFSpec clfSpec with
            | .error err => (uValues, some err)
            | .ok b =>
              ({ uValues with Collection := { uValues.Collection with CLFSpec := b } }, none)

/-- The block `if !opts.IsHubCluster` of `buildMangedValues` (values.go lines 121-147),
entered with `mValues`: the pair returned from inside the block when the error is
`some`, and the `mValues` with which execution continues after the block otherwise. -/
def buildMangedValues.collection (k : Collaborators) (opts : k.Options)
    (mValues : ManagedValues) : ManagedValues × Option k.Error :=
  if !k.IsHubCluster opts then
    let mValues : ManagedValues :=
      { mValues with Collection := { CollectionValues.zero with Enabled := true } }
    match k.buildManagedCollectionConfigMaps opts with
    | .error err => (mValues, some err)
    | .ok configmaps =>
      let mValues : ManagedValues :=
        { mValues with Collection := { mValues.Collection with ConfigMaps := configmaps } }
      match k.buildManagedCollectionSecrets opts with
      | .error err => (mValues, some err)
      | .ok secrets =>
        let mValues : ManagedValues :=
          { mValues with Collection := { mValues.Collection with Secrets := secrets } }
        match k.buildManagedCLFSpec opts with
        | .error err => (mValues, some err)
        | .ok clfSpec =>
          match k.marshalManagedCLFSpec clfSpec with
          | .error err => (mValues, some err)
          | .ok clfMarshaled =>
            ({ mValues with Collection := { mValues.Collection with CLFSpec := clfMarshaled } },
              none)
  else (mValues, none)

/-- The block `if opts.IsHubCluster` of `buildMangedValues` (values.go lines 149-169),
entered with `mValues`, with the same reading of the result. -/
def buildMangedValues.storage (k : Collaborators) (opts : k.Options)
    (mValues : ManagedValues) : ManagedValues × Option k.Error :=
  if k.IsHubCluster opts then
    let mValues : ManagedValues :=
      { mValues with Storage := { StorageValues.zero with Enabled := true } }
    match k.buildManagedStorageSecrets opts with
    | .error err => (mValues, some err)
    | .ok secrets =>
      let mValues : ManagedValues :=
        { mValues with Storage := { mValues.Storage with Secrets := secrets } }
      match k.buildManagedLokistackSpec opts with
      | .error err => (mValues, some err)
      | .ok lsSpec =>
        match k.marshalLokistackSpec lsSpec with
        | .error err => (mValues, some err)
        | .ok lsMarshaled =>
          ({ mValues with Storage := { mValues.Storage with LSSpec := lsMarshaled } }, none)
  else (mValues, none)

/-- The function `buildMangedValues` (values.go lines 115-172). -/
def buildMangedValues (k : Collaborators) (opts : k.Options) :
    ManagedValues × Option k.Error :=
  if !k.DefaultStackEnabled opts then (ManagedValues.zero, none)
  else
    let mValues := ManagedValues.zero
    match buildMangedValues.collection k opts mValues with
    | (mValues, some err) => (mValues, some err)
    | (mValues, none) =>
      match buildMangedValues.storage k opts mValues with
      | (mValues, some err) => (mValues, some err)
      | (mValues, none) => (mValues, none)

/-- The function `BuildValues` (values.go lines 46-63). The result is the Go pair
`(*LoggingValues, error)`, a nil pointer being `none`. -/
def BuildValues (k : Collaborators) (opts : k.Options) :
    Option LoggingValues × Option k.Error :=
  match buildUnmangedValues k opts with
  | (_, some err) => (none, some err)
  | (uValues, none) =>
    match buildMangedValues k opts with
    | (_, some err) => (none, some err)
    | (mValues, none) =>
      (some { Enabled := enabledLogging k opts
              OpenshiftLoggingChannel := k.buildSubscriptionChannel opts
              Unmanaged := uValues
              Managed := mValues }, none)

/-- Options for the sample collaborators: the three flags, and the name of the helper
that is to fail, if any. -/
structure SampleOptions where
  unmanagedCollection : Bool
  defaultStack : Bool
  IsHubCluster : Bool
  failing : Option String
  deriving DecidableEq, Repr

/-- The result of the sample helper `name`: an error when the options name it as the
failing one, and `value` otherwise. -/
def sampleStep {α : Type} (name : String) (value : α) (opts : SampleOptions) :
    Except String α :=
  if opts.failing = some name then .error (name ++ " failed") else .ok value

/-- Collaborators over `SampleOptions`, at which the theorems below are instantiated:
the flags are read from the options, every helper returns a fixed non-empty value, except
the one the options name as failing. -/
def sampleCollaborators : Collaborators :=
  { Options := SampleOptions
    Error := String
    Annotations := List (String × String)
    CLFSpec := String
    ManagedCLFSpec := String
    LokistackSpec := String
    UnmanagedCollectionEnabled := fun opts => opts.unmanagedCollection
    DefaultStackEnabled := fun opts => opts.defaultStack
    IsHubCluster := fun opts => opts.IsHubCluster
    buildSubscriptionChannel := fun _ => "stable"
    buildConfigMaps := sampleStep "buildConfigMaps" [⟨"cm", "d"⟩]
    buildSecrets := sampleStep "buildSecrets" [⟨"secret", "d"⟩]
    GetAnnotations := fun _ => [("a", "b")]
    marshalAnnotations := fun _ => .ok "annotations"
    buildClusterLogForwarderSpec := sampleStep "buildClusterLogForwarderSpec" "clf"
    marshalCLFSpec := fun spec => .ok ("json:" ++ spec)
    buildManagedCollectionConfigMaps :=
      sampleStep "buildManagedCollectionConfigMaps" [⟨"mcm", "d"⟩]
    buildManagedCollectionSecrets := sampleStep "buildManagedCollectionSecrets" [⟨"ms", "d"⟩]
    buildManagedCLFSpec := sampleStep "buildManagedCLFSpec" "mclf"
    marshalManagedCLFSpec := fun spec => .ok ("json:" ++ spec)
    buildManagedStorageSecrets := sampleStep "buildManagedStorageSecrets" [⟨"ss", "d"⟩]
    buildManagedLokistackSpec := sampleStep "buildManagedLokistackSpec" "ls"
    marshalLokistackSpec := fun spec => .ok ("json:" ++ spec) }

/-- Scenario C of the specification: unmanaged collection only, on a spoke. -/
def scenarioC : SampleOptions :=
  { unmanagedCollection := true, defaultStack := false, IsHubCluster := false,
    failing := none }

/-- Scenario D of the specification: the default stack on the hub. -/
def scenarioD : SampleOptions :=
  { unmanagedCollection := false, defaultStack := true, IsHubCluster := true,
    failing := none }

/-- The document that `BuildValues` returns for `scenarioC` with the sample
collaborators. -/
def scenarioCDocument : LoggingValues :=
  { Enabled := true
    OpenshiftLoggingChannel := "stable"
    Unmanaged :=
      { Collection :=
          { Enabled := true, CLFAnnotations := "annotations", CLFSpec := "json:clf"
            Secrets := [⟨"secret", "d"⟩], ConfigMaps := [⟨"cm", "d"⟩] } }
    Managed := ManagedValues.zero }

/-- The document that `BuildValues` returns for `scenarioD` with the sample
collaborators. -/
def scenarioDDocument : LoggingValues :=
  { Enabled := true
    OpenshiftLoggingChannel := "stable"
    Unmanaged := UnmanagedValues.zero
    Managed :=
      { Collection := CollectionValues.zero
        Storage := { Enabled := true, Secrets := [⟨"ss", "d"⟩], LSSpec := "json:ls" } } }

/-- The error of a step that returns `(value, err)`: `none` when `err` is nil. -/
def stepError {ε α : Type} : Except ε α → Option ε
  | .error err => some err
  | .ok _ => none

/-- The error of a serialization step, which runs on what the preceding build step
returned: `none` when that build step failed, the serialization then does not run. -/
def marshalStepError {ε α : Type} (built : Except ε α) (marshal : α → Except ε String) :
    Option ε :=
  match built with
  | .error _ => none
  | .ok spec => stepError (marshal spec)

/-- The first error of a sequence of step outcomes, `none` when every step succeeded. -/
def firstError {ε : Type} : List (Option ε) → Option ε
  | [] => none
  | some err :: _ => some err
  | none :: rest => firstError rest

/-- The outcomes of the steps of the unmanaged branch, in order: config maps, secrets,
annotations marshal, spec build, spec marshal. -/
def unmanagedSteps (k : Collaborators) (opts : k.Options) : List (Option k.Error) :=
  [stepError (k.buildConfigMaps opts),
   stepError (k.buildSecrets opts),
   stepError (k.marshalAnnotations (k.GetAnnotations opts)),
   stepError (k.buildClusterLogForwarderSpec opts),
   marshalStepError (k.buildClusterLogForwarderSpec opts) k.marshalCLFSpec]

/-- The outcomes of the steps of the managed collection branch, in order: config maps,
secrets, spec build, spec marshal. -/
def managedCollectionSteps (k : Collaborators) (opts : k.Options) : List (Option k.Error) :=
  [stepError (k.buildManagedCollectionConfigMaps opts),
   stepError (k.buildManagedCollectionSecrets opts),
   stepError (k.buildManagedCLFSpec opts),
   marshalStepError (k.buildManagedCLFSpec opts) k.marshalManagedCLFSpec]

/-- The outcomes of the steps of the managed storage branch, in order: secrets, spec
build, spec marshal. -/
def managedStorageSteps (k : Collaborators) (opts : k.Options) : List (Option k.Error) :=
  [stepError (k.buildManagedStorageSecrets opts),
   stepError (k.buildManagedLokistackSpec opts),
   marshalStepError (k.buildManagedLokistackSpec opts) k.marshalLokistackSpec]

/-- The outcomes of the steps of the active branches, following the wording of the
specification rather than the code: the unmanaged branch when unmanaged collection is
enabled, then the managed branch that the default stack selects, storage on the hub and
collection on a spoke. The helpers of the other branches do not occur. -/
def activeSteps (k : Collaborators) (opts : k.Options) : List (Option k.Error) :=
  (if k.UnmanagedCollectionEnabled opts then unmanagedSteps k opts else []) ++
    (if k.DefaultStackEnabled opts then
      (if k.IsHubCluster opts then managedStorageSteps k opts
       else managedCollectionSteps k opts)
     else [])

/-- The unmanaged collection of the sample collaborators, when every helper succeeds. -/
def sampleUnmanaged : UnmanagedValues :=
  { Collection :=
      { Enabled := true, CLFAnnotations := "annotations", CLFSpec := "json:clf"
        Secrets := [⟨"secret", "d"⟩], ConfigMaps := [⟨"cm", "d"⟩] } }

/-- Unmanaged collection together with the default stack, on a spoke. -/
def bothOnSpoke : SampleOptions :=
  { unmanagedCollection := true, defaultStack := true, IsHubCluster := false,
    failing := none }

/-- Unmanaged collection together with the default stack, on the hub. -/
def bothOnHub : SampleOptions :=
  { unmanagedCollection := true, defaultStack := true, IsHubCluster := true,
    failing := none }

/-- The document that `BuildValues` returns for `bothOnSpoke` with the sample
collaborators. -/
def bothOnSpokeDocument : LoggingValues :=
  { Enabled := true
    OpenshiftLoggingChannel := "stable"
    Unmanaged := sampleUnmanaged
    Managed :=
      { Collection :=
          { Enabled := true, CLFAnnotations := "", CLFSpec := "json:mclf"
            Secrets := [⟨"ms", "d"⟩], ConfigMaps := [⟨"mcm", "d"⟩] }
        Storage := StorageValues.zero } }

/-- The document that `BuildValues` returns for `bothOnHub` with the sample
collaborators. -/
def bothOnHubDocument : LoggingValues :=
  { Enabled := true
    OpenshiftLoggingChannel := "stable"
    Unmanaged := sampleUnmanaged
    Managed :=
      { Collection := CollectionValues.zero
        Storage := { Enabled := true, Secrets := [⟨"ss", "d"⟩], LSSpec := "json:ls" } } }

/-- No branch enabled, on the hub, with a helper that would fail if it were called. -/
def nothingEnabled : SampleOptions :=
  { unmanagedCollection := false, defaultStack := false, IsHubCluster := true,
    failing := some "buildConfigMaps" }

/-- The document in which nothing is enabled and every sub-section is empty. -/
def emptyDocument (channel : String) : LoggingValues :=
  { Enabled := false
    OpenshiftLoggingChannel := channel
    Unmanaged := UnmanagedValues.zero
    Managed := ManagedValues.zero }

end Manifests

namespace Addon

/-! ## The health checker: auxiliary facts -/

theorem checkCLFValues_eq_none_iff (c : ProbeConstants) (identifier : ResourceIdentifier)
    (values : List FeedbackValue) :
    checkCLFValues c identifier values = none ↔
      ∀ v ∈ values, v.Name = c.clfProbeKey ∧ v.Value.String = some "True" := by
  induction values with
  | nil => simp [checkCLFValues]
  | cons v rest ih =>
    by_cases hname : v.Name = c.clfProbeKey
    · cases hs : v.Value.String with
      | none => simp [checkCLFValues, hname, hs]
      | some s =>
        by_cases htrue : s = "True"
        · simp [checkCLFValues, hname, hs, htrue, ih]
        · simp [checkCLFValues, hname, hs, htrue]
    · simp [checkCLFValues, hname]

theorem checkOTELColValues_eq_none_iff (c : ProbeConstants) (identifier : ResourceIdentifier)
    (values : List FeedbackValue) :
    checkOTELColValues c identifier values = none ↔
      ∀ v ∈ values, v.Name = c.otelColProbeKey ∧ ∃ n : GoInt64, v.Value.Integer = some n ∧ 1 ≤ n := by
  induction values with
  | nil => simp [checkOTELColValues]
  | cons v rest ih =>
    by_cases hname : v.Name = c.otelColProbeKey
    · cases hs : v.Value.Integer with
      | none => simp [checkOTELColValues, hname, hs]
      | some n =>
        by_cases hn : n < 1
        · simp [checkOTELColValues, hname, hs, hn]
        · simp [checkOTELColValues, hname, hs, hn, ih, not_lt.mp hn]
    · simp [checkOTELColValues, hname]

theorem checkField_of_no_values (c : ProbeConstants) (f : ResultField)
    (h : f.FeedbackResult.Values = []) : checkField c f = none := by
  simp [checkField, h]

theorem checkField_unknown (c : ProbeConstants) (f : ResultField)
    (hvalues : f.FeedbackResult.Values ≠ [])
    (hclf : f.ResourceIdentifier.Resource ≠ c.ClusterLogForwardersResource)
    (hotel : f.ResourceIdentifier.Resource ≠ c.OpenTelemetryCollectorsResource) :
    checkField c f =
      some (wrap .errUnknownResource
        (": " ++ f.ResourceIdentifier.Resource ++ " with key " ++
          f.ResourceIdentifier.Namespace ++ "/" ++ f.ResourceIdentifier.Name)) := by
  simp [checkField, hvalues, hclf, hotel]

theorem checkFields_eq_none_iff (c : ProbeConstants) (fields : List ResultField) :
    checkFields c fields = none ↔ ∀ f ∈ fields, checkField c f = none := by
  induction fields with
  | nil => simp [checkFields]
  | cons f rest ih =>
    cases hf : checkField c f with
    | none => simp [checkFields, hf, ih]
    | some e => simp [checkFields, hf]

theorem checkFields_append_of_none (c : ProbeConstants) (front back : List ResultField)
    (h : ∀ f ∈ front, checkField c f = none) :
    checkFields c (front ++ back) = checkFields c back := by
  induction front with
  | nil => rfl
  | cons f rest ih =>
    have hf : checkField c f = none := h f (List.mem_cons_self f rest)
    have hrest : ∀ g ∈ rest, checkField c g = none :=
      fun g hg => h g (List.mem_cons_of_mem f hg)
    simp [checkFields, hf, ih hrest]

theorem checkFields_cons_of_some (c : ProbeConstants) (f : ResultField)
    (rest : List ResultField) (e : ProbeError) (h : checkField c f = some e) :
    checkFields c (f :: rest) = some e := by
  simp [checkFields, h]

theorem checkFields_eq_of_all (c : ProbeConstants) (e : ProbeError) (fields : List ResultField)
    (hall : ∀ g ∈ fields, checkField c g = none ∨ checkField c g = some e)
    (hex : ∃ g ∈ fields, checkField c g = some e) :
    checkFields c fields = some e := by
  induction fields with
  | nil => simp at hex
  | cons f rest ih =>
    rcases hall f (List.mem_cons_self f rest) with hf | hf
    · obtain ⟨g, hg, hge⟩ := hex
      have hgrest : g ∈ rest := by
        rcases List.mem_cons.mp hg with rfl | hmem
        · rw [hf] at hge
          cases hge
        · exact hmem
      have := ih (fun x hx => hall x (List.mem_cons_of_mem f hx)) ⟨g, hgrest, hge⟩
      simp [checkFields, hf, this]
    · exact checkFields_cons_of_some c f rest e hf

theorem HealthChecker_eq_none_iff (c : ProbeConstants) (fields : List ResultField) :
    HealthChecker c fields = none ↔ fields ≠ [] ∧ ∀ f ∈ fields, checkField c f = none := by
  cases fields with
  | nil => simp [HealthChecker]
  | cons f rest => simp [HealthChecker, checkFields_eq_none_iff]

theorem checkField_eq_none_iff (c : ProbeConstants)
    (hdistinct : c.ClusterLogForwardersResource ≠ c.OpenTelemetryCollectorsResource)
    (f : ResultField) :
    checkField c f = none ↔
      (f.FeedbackResult.Values ≠ [] →
        (f.ResourceIdentifier.Resource = c.ClusterLogForwardersResource ∧
          ∀ v ∈ f.FeedbackResult.Values,
            v.Name = c.clfProbeKey ∧ v.Value.String = some "True") ∨
        (f.ResourceIdentifier.Resource = c.OpenTelemetryCollectorsResource ∧
          ∀ v ∈ f.FeedbackResult.Values,
            v.Name = c.otelColProbeKey ∧ ∃ n : GoInt64, v.Value.Integer = some n ∧ 1 ≤ n)) := by
  by_cases hvalues : f.FeedbackResult.Values = []
  · simp [checkField, hvalues]
  · by_cases hclf : f.ResourceIdentifier.Resource = c.ClusterLogForwardersResource
    · have hnot : ¬ f.ResourceIdentifier.Resource = c.OpenTelemetryCollectorsResource :=
        fun h => hdistinct (hclf.symm.trans h)
      simp [checkField, hvalues, hclf, hnot, checkCLFValues_eq_none_iff, hdistinct]
    · by_cases hotel : f.ResourceIdentifier.Resource = c.OpenTelemetryCollectorsResource
      · simp [checkField, hvalues, hclf, hotel, checkOTELColValues_eq_none_iff,
          Ne.symm hdistinct]
      · simp [checkField, hvalues, hclf, hotel]

theorem checkCLFValues_sentinel_ne (c : ProbeConstants) (identifier : ResourceIdentifier)
    (values : List FeedbackValue) (e : ProbeError)
    (h : checkCLFValues c identifier values = some e) : e.sentinel ≠ .errMissingFields := by
  induction values with
  | nil => simp [checkCLFValues] at h
  | cons v rest ih =>
    unfold checkCLFValues at h
    split at h
    · cases h; simp [wrap]
    · split at h
      · cases h; simp [wrap]
      · split at h
        · cases h; simp [wrap]
        · exact ih h

theorem checkOTELColValues_sentinel_ne (c : ProbeConstants) (identifier : ResourceIdentifier)
    (values : List FeedbackValue) (e : ProbeError)
    (h : checkOTELColValues c identifier values = some e) :
    e.sentinel ≠ .errMissingFields := by
  induction values with
  | nil => simp [checkOTELColValues] at h
  | cons v rest ih =>
    unfold checkOTELColValues at h
    split at h
    · cases h; simp [wrap]
    · split at h
      · cases h; simp [wrap]
      · split at h
        · cases h; simp [wrap]
        · exact ih h

theorem checkField_sentinel_ne (c : ProbeConstants) (f : ResultField) (e : ProbeError)
    (h : checkField c f = some e) : e.sentinel ≠ .errMissingFields := by
  unfold checkField at h
  split at h
  · cases h
  · dsimp only at h
    split at h
    · exact checkCLFValues_sentinel_ne c _ _ e h
    · split at h
      · exact checkOTELColValues_sentinel_ne c _ _ e h
      · cases h; simp [wrap]

theorem checkFields_sentinel_ne (c : ProbeConstants) (fields : List ResultField)
    (e : ProbeError) (h : checkFields c fields = some e) :
    e.sentinel ≠ .errMissingFields := by
  induction fields with
  | nil => simp [checkFields] at h
  | cons f rest ih =>
    cases hf : checkField c f with
    | none =>
      simp [checkFields, hf] at h
      exact ih h
    | some e₁ =>
      simp [checkFields, hf] at h
      subst h
      exact checkField_sentinel_ne c f e₁ hf

theorem checkFields_insert_no_values (c : ProbeConstants) (front back : List ResultField)
    (z : ResultField) (hz : z.FeedbackResult.Values = []) :
    checkFields c (front ++ z :: back) = checkFields c (front ++ back) := by
  induction front with
  | nil => simp [checkFields, checkField_of_no_values c z hz]
  | cons f rest ih =>
    cases hf : checkField c f with
    | none => simp [checkFields, hf, ih]
    | some e => simp [checkFields, hf]

/-! ## The health checker: the claims -/

/-- C1: the checker returns nil exactly when the sequence of fields is non-empty and every
field that has at least one value is either a log-forwarder field all of whose values
are named `clfProbeKey` and hold the string "True", or a trace-collector field all of
whose values are named `otelColProbeKey` and hold an integer that is at least 1. The two
resource names are different constants. -/
theorem HealthChecker_healthy_iff (c : ProbeConstants)
    (hdistinct : c.ClusterLogForwardersResource ≠ c.OpenTelemetryCollectorsResource)
    (fields : List ResultField) :
    HealthChecker c fields = none ↔
      fields ≠ [] ∧
      ∀ f ∈ fields, f.FeedbackResult.Values ≠ [] →
        (f.ResourceIdentifier.Resource = c.ClusterLogForwardersResource ∧
          ∀ v ∈ f.FeedbackResult.Values,
            v.Name = c.clfProbeKey ∧ v.Value.String = some "True") ∨
        (f.ResourceIdentifier.Resource = c.OpenTelemetryCollectorsResource ∧
          ∀ v ∈ f.FeedbackResult.Values,
            v.Name = c.otelColProbeKey ∧ ∃ n : GoInt64, v.Value.Integer = some n ∧ 1 ≤ n) := by
  rw [HealthChecker_eq_none_iff]
  constructor
  · rintro ⟨hne, hall⟩
    exact ⟨hne, fun f hf => (checkField_eq_none_iff c hdistinct f).mp (hall f hf)⟩
  · rintro ⟨hne, hall⟩
    exact ⟨hne, fun f hf => (checkField_eq_none_iff c hdistinct f).mpr (hall f hf)⟩

/-- C1 at a healthy sequence of a log-forwarder field, a trace-collector field and a
field without values. -/
theorem HealthChecker_healthy_iff_witness :
    sampleConstants.ClusterLogForwardersResource ≠
        sampleConstants.OpenTelemetryCollectorsResource ∧
      HealthChecker sampleConstants
        [sampleField "clusterlogforwarders" [stringValue "isReady" "True"],
         sampleField "opentelemetrycollectors" [integerValue "replicas" 2],
         sampleField "other" []] = none ∧
      ∀ f ∈ [sampleField "clusterlogforwarders" [stringValue "isReady" "True"],
             sampleField "opentelemetrycollectors" [integerValue "replicas" 2],
             sampleField "other" []],
        f.FeedbackResult.Values ≠ [] →
          (f.ResourceIdentifier.Resource = sampleConstants.ClusterLogForwardersResource ∧
            ∀ v ∈ f.FeedbackResult.Values,
              v.Name = sampleConstants.clfProbeKey ∧ v.Value.String = some "True") ∨
          (f.ResourceIdentifier.Resource = sampleConstants.OpenTelemetryCollectorsResource ∧
            ∀ v ∈ f.FeedbackResult.Values,
              v.Name = sampleConstants.otelColProbeKey ∧
                ∃ n : GoInt64, v.Value.Integer = some n ∧ 1 ≤ n) :=
  ⟨by decide, by decide,
    ((HealthChecker_healthy_iff sampleConstants (by decide) _).mp (by decide)).2⟩

/-- C2: the reason of the verdict is `errMissingFields` exactly on the empty sequence of
fields: the empty sequence is reported as unhealthy with that reason, and no other
input is. -/
theorem HealthChecker_missing_fields_iff (c : ProbeConstants) (fields : List ResultField) :
    reason (HealthChecker c fields) = some .errMissingFields ↔ fields = [] := by
  cases fields with
  | nil => simp [HealthChecker, reason, bare]
  | cons f rest =>
    simp only [HealthChecker, List.length_cons, Nat.succ_ne_zero, if_false, reduceCtorEq,
      iff_false]
    intro h
    cases hres : checkFields c (f :: rest) with
    | none => simp [hres, reason] at h
    | some e =>
      simp [hres, reason] at h
      exact checkFields_sentinel_ne c _ e hres h

/-- C3, the claim as stated fails: a sequence whose only field names a resource that is
neither of the two known ones and has no values is reported healthy, because a field
without values is skipped before its resource is looked at. -/
theorem unknown_resource_without_values_healthy :
    (sampleField "configmaps" []).ResourceIdentifier.Resource ≠
        sampleConstants.ClusterLogForwardersResource ∧
      (sampleField "configmaps" []).ResourceIdentifier.Resource ≠
        sampleConstants.OpenTelemetryCollectorsResource ∧
      (sampleField "configmaps" []).FeedbackResult.Values = [] ∧
      HealthChecker sampleConstants [sampleField "configmaps" []] = none := by
  decide

/-- C3, amended: if a sequence contains a field that has at least one value and whose
resource is neither of the two known ones, and every other field of the sequence passes,
then the verdict is unhealthy with reason `errUnknownResource`. -/
theorem HealthChecker_unknown_resource (c : ProbeConstants) (fields : List ResultField)
    (f : ResultField) (hmem : f ∈ fields)
    (hclf : f.ResourceIdentifier.Resource ≠ c.ClusterLogForwardersResource)
    (hotel : f.ResourceIdentifier.Resource ≠ c.OpenTelemetryCollectorsResource)
    (hvalues : f.FeedbackResult.Values ≠ [])
    (hothers : ∀ g ∈ fields, g ≠ f → checkField c g = none) :
    reason (HealthChecker c fields) = some .errUnknownResource := by
  have hf := checkField_unknown c f hvalues hclf hotel
  have hne : fields.length ≠ 0 := by
    intro h
    rw [List.length_eq_zero] at h
    simp [h] at hmem
  have hall : ∀ g ∈ fields, checkField c g = none ∨ checkField c g = some (wrap
      .errUnknownResource (": " ++ f.ResourceIdentifier.Resource ++ " with key " ++
        f.ResourceIdentifier.Namespace ++ "/" ++ f.ResourceIdentifier.Name)) := by
    intro g hg
    by_cases hgf : g = f
    · right
      rw [hgf]
      exact hf
    · left
      exact hothers g hg hgf
  have hres := checkFields_eq_of_all c _ fields hall ⟨f, hmem, hf⟩
  simp [HealthChecker, hne, hres, reason, wrap]

/-- C3, amended, at a sequence with a passing log-forwarder field and a field of an
unknown resource that has a value. -/
theorem HealthChecker_unknown_resource_witness :
    reason (HealthChecker sampleConstants
      [sampleField "clusterlogforwarders" [stringValue "isReady" "True"],
       sampleField "configmaps" [stringValue "isReady" "True"]]) =
      some .errUnknownResource :=
  HealthChecker_unknown_resource sampleConstants
    [sampleField "clusterlogforwarders" [stringValue "isReady" "True"],
     sampleField "configmaps" [stringValue "isReady" "True"]]
    (sampleField "configmaps" [stringValue "isReady" "True"])
    (by decide) (by decide) (by decide) (by decide) (by decide)

/-- C4, the claim as stated fails: inserting a field without values into the empty
sequence turns the verdict from unhealthy with reason `errMissingFields` into healthy. -/
theorem insert_into_empty_changes_verdict :
    (sampleField "clusterlogforwarders" []).FeedbackResult.Values = [] ∧
      reason (HealthChecker sampleConstants ([] ++ [])) = some .errMissingFields ∧
      HealthChecker sampleConstants ([] ++ sampleField "clusterlogforwarders" [] :: []) =
        none := by
  decide

/-- C4, amended: inserting a field without values at any position of a non-empty sequence
of fields (equivalently, removing it, as long as a field remains) leaves the verdict
unchanged: the same error, with the same reason and message, or nil in both cases. -/
theorem HealthChecker_insert_no_values (c : ProbeConstants) (front back : List ResultField)
    (z : ResultField) (hz : z.FeedbackResult.Values = []) (hne : front ++ back ≠ []) :
    HealthChecker c (front ++ z :: back) = HealthChecker c (front ++ back) := by
  have hfields := checkFields_insert_no_values c front back z hz
  have hlen : (front ++ back).length ≠ 0 := by
    intro h
    exact hne (List.length_eq_zero.mp h)
  simp only [HealthChecker, hfields, hlen, if_false]
  simp

/-- C4, amended, at a field without values inserted between a passing field and a failing
one. -/
theorem HealthChecker_insert_no_values_witness :
    HealthChecker sampleConstants
        ([sampleField "clusterlogforwarders" [stringValue "isReady" "True"]] ++
          sampleField "configmaps" [] ::
          [sampleField "opentelemetrycollectors" [integerValue "replicas" 0]]) =
      HealthChecker sampleConstants
        ([sampleField "clusterlogforwarders" [stringValue "isReady" "True"]] ++
          [sampleField "opentelemetrycollectors" [integerValue "replicas" 0]]) :=
  HealthChecker_insert_no_values sampleConstants
    [sampleField "clusterlogforwarders" [stringValue "isReady" "True"]]
    [sampleField "opentelemetrycollectors" [integerValue "replicas" 0]]
    (sampleField "configmaps" []) (by decide) (by decide)

/-- C5: for a single log-forwarder field with a single value named `clfProbeKey`, the
verdict is healthy when the string of the value is "True", unhealthy with reason
`errProbeConditionNotSatisfied` for any other string, and unhealthy with reason
`errProbeValueIsNil` when the value has no string. -/
theorem HealthChecker_single_clf_value (c : ProbeConstants) (group name ns : GoString)
    (value : FieldValue) :
    reason (HealthChecker c
      [{ ResourceIdentifier :=
           { Group := group, Resource := c.ClusterLogForwardersResource, Name := name,
             Namespace := ns }
         FeedbackResult := { Values := [{ Name := c.clfProbeKey, Value := value }] } }]) =
      match value.String with
      | none => some .errProbeValueIsNil
      | some s => if s = "True" then none else some .errProbeConditionNotSatisfied := by
  cases hs : value.String with
  | none => simp [HealthChecker, checkFields, checkField, checkCLFValues, hs, reason, wrap]
  | some s =>
    by_cases htrue : s = "True"
    · simp [HealthChecker, checkFields, checkField, checkCLFValues, hs, reason, htrue]
    · simp [HealthChecker, checkFields, checkField, checkCLFValues, hs, reason, htrue, wrap]

/-- C6: for a single trace-collector field with a single value named `otelColProbeKey`
that holds the integer `n`, the verdict is healthy exactly when `n` is at least 1, and
for `n` at most 0 it is unhealthy with reason `errProbeConditionNotSatisfied`. The two
resource names are different constants. -/
theorem HealthChecker_single_otelcol_value (c : ProbeConstants)
    (hdistinct : c.ClusterLogForwardersResource ≠ c.OpenTelemetryCollectorsResource)
    (group name ns typ : GoString) (n : GoInt64) (s : Option GoString) (b : Option Bool)
    (j : Option GoString) :
    (HealthChecker c
        [{ ResourceIdentifier :=
             { Group := group, Resource := c.OpenTelemetryCollectorsResource, Name := name,
               Namespace := ns }
           FeedbackResult :=
             { Values := [{ Name := c.otelColProbeKey
                            Value := { Typ := typ, Integer := some n, String := s,
                                       Boolean := b, JsonRaw := j } }] } }] = none ↔
        1 ≤ n) ∧
      (n ≤ 0 →
        reason (HealthChecker c
          [{ ResourceIdentifier :=
               { Group := group, Resource := c.OpenTelemetryCollectorsResource,
                 Name := name, Namespace := ns }
             FeedbackResult :=
               { Values := [{ Name := c.otelColProbeKey
                              Value := { Typ := typ, Integer := some n, String := s,
                                         Boolean := b, JsonRaw := j } }] } }]) =
          some .errProbeConditionNotSatisfied) := by
  have hne : ¬ c.OpenTelemetryCollectorsResource = c.ClusterLogForwardersResource :=
    fun h => hdistinct h.symm
  by_cases hn : n < 1
  · have h1 : ¬ 1 ≤ n := not_le.mpr hn
    simp [HealthChecker, checkFields, checkField, checkOTELColValues, hne, hn, h1, reason,
      wrap]
  · have h1 : 1 ≤ n := not_lt.mp hn
    have h0 : ¬ n ≤ 0 := not_le.mpr (lt_of_lt_of_le Int.zero_lt_one h1)
    simp [HealthChecker, checkFields, checkField, checkOTELColValues, hne, hn, h1, h0]

/-- C6 at the replica count 0: unhealthy with reason `errProbeConditionNotSatisfied`. -/
theorem HealthChecker_single_otelcol_value_witness :
    sampleConstants.ClusterLogForwardersResource ≠
        sampleConstants.OpenTelemetryCollectorsResource ∧
      (0 : GoInt64) ≤ 0 ∧
      reason (HealthChecker sampleConstants
        [{ ResourceIdentifier :=
             { Group := "opentelemetry.io"
               Resource := sampleConstants.OpenTelemetryCollectorsResource
               Name := "spoke-otelcol", Namespace := "spoke-otelcol" }
           FeedbackResult :=
             { Values := [{ Name := sampleConstants.otelColProbeKey
                            Value := { Typ := "Integer", Integer := some 0, String := none,
                                       Boolean := none, JsonRaw := none } }] } }]) =
        some .errProbeConditionNotSatisfied :=
  ⟨by decide, by decide,
    (HealthChecker_single_otelcol_value sampleConstants (by decide) "opentelemetry.io"
      "spoke-otelcol" "spoke-otelcol" "Integer" 0 none none none).2 (by decide)⟩

/-- C7: whether the verdict is healthy does not depend on the order of the fields: a
sequence and any permutation of it are both healthy or both unhealthy. -/
theorem HealthChecker_healthy_perm (c : ProbeConstants) (fields fields₂ : List ResultField)
    (hperm : fields.Perm fields₂) :
    HealthChecker c fields = none ↔ HealthChecker c fields₂ = none := by
  rw [HealthChecker_eq_none_iff, HealthChecker_eq_none_iff]
  have hnil : fields ≠ [] ↔ fields₂ ≠ [] := by
    rw [← List.length_pos, ← List.length_pos, hperm.length_eq]
  have hall : (∀ f ∈ fields, checkField c f = none) ↔
      ∀ f ∈ fields₂, checkField c f = none :=
    ⟨fun h f hf => h f (hperm.mem_iff.mpr hf), fun h f hf => h f (hperm.mem_iff.mp hf)⟩
  rw [hnil, hall]

/-- C7 at two fields, one failing and one passing, in both orders: unhealthy either
way. -/
theorem HealthChecker_healthy_perm_witness :
    (HealthChecker sampleConstants
        [sampleField "opentelemetrycollectors" [integerValue "replicas" 0],
         sampleField "clusterlogforwarders" [stringValue "isReady" "True"]] = none ↔
      HealthChecker sampleConstants
        [sampleField "clusterlogforwarders" [stringValue "isReady" "True"],
         sampleField "opentelemetrycollectors" [integerValue "replicas" 0]] = none) :=
  HealthChecker_healthy_perm sampleConstants _ _ (List.Perm.swap _ _ [])

/-- C8: a field of a known resource kind whose first value is not named by the key of
that kind fails with reason `errUnknownProbeKey`, whatever the value holds; so does the
checker on the sequence made of that field alone. The two resource names are different
constants. -/
theorem checkField_unknown_probe_key (c : ProbeConstants)
    (hdistinct : c.ClusterLogForwardersResource ≠ c.OpenTelemetryCollectorsResource)
    (f : ResultField) (v : FeedbackValue) (rest : List FeedbackValue)
    (hvalues : f.FeedbackResult.Values = v :: rest)
    (hkind : (f.ResourceIdentifier.Resource = c.ClusterLogForwardersResource ∧
        v.Name ≠ c.clfProbeKey) ∨
      (f.ResourceIdentifier.Resource = c.OpenTelemetryCollectorsResource ∧
        v.Name ≠ c.otelColProbeKey)) :
    reason (checkField c f) = some .errUnknownProbeKey ∧
      reason (HealthChecker c [f]) = some .errUnknownProbeKey := by
  have hfield : reason (checkField c f) = some .errUnknownProbeKey := by
    rcases hkind with ⟨hres, hname⟩ | ⟨hres, hname⟩
    · simp [checkField, hvalues, hres, checkCLFValues, hname, reason, wrap]
    · have hne : ¬ c.OpenTelemetryCollectorsResource = c.ClusterLogForwardersResource :=
        fun h => hdistinct h.symm
      simp [checkField, hvalues, hres, hne, checkOTELColValues, hname, reason, wrap]
  refine ⟨hfield, ?_⟩
  cases hres : checkField c f with
  | none => simp [hres, reason] at hfield
  | some e =>
    rw [hres] at hfield
    simpa [HealthChecker, checkFields, hres] using hfield

/-- C8 at a trace-collector field whose first value has a foreign key and a healthy
replica count, followed by a well-formed value. -/
theorem checkField_unknown_probe_key_witness :
    reason (checkField sampleConstants
        (sampleField "opentelemetrycollectors"
          [integerValue "isReady" 3, integerValue "replicas" 3])) =
        some .errUnknownProbeKey ∧
      reason (HealthChecker sampleConstants
        [sampleField "opentelemetrycollectors"
          [integerValue "isReady" 3, integerValue "replicas" 3]]) =
        some .errUnknownProbeKey :=
  checkField_unknown_probe_key sampleConstants (by decide)
    (sampleField "opentelemetrycollectors"
      [integerValue "isReady" 3, integerValue "replicas" 3])
    (integerValue "isReady" 3) [integerValue "replicas" 3] rfl (Or.inr (by decide))

theorem checkCLFValues_append_of_none (c : ProbeConstants) (identifier : ResourceIdentifier)
    (front back : List FeedbackValue) (h : checkCLFValues c identifier front = none) :
    checkCLFValues c identifier (front ++ back) = checkCLFValues c identifier back := by
  induction front with
  | nil => rfl
  | cons v rest ih =>
    rw [checkCLFValues_eq_none_iff] at h
    obtain ⟨hname, hstring⟩ := h v (List.mem_cons_self v rest)
    have hrest : checkCLFValues c identifier rest = none :=
      (checkCLFValues_eq_none_iff c identifier rest).mpr
        (fun w hw => h w (List.mem_cons_of_mem v hw))
    simp [checkCLFValues, hname, hstring, ih hrest]

theorem checkOTELColValues_append_of_none (c : ProbeConstants)
    (identifier : ResourceIdentifier) (front back : List FeedbackValue)
    (h : checkOTELColValues c identifier front = none) :
    checkOTELColValues c identifier (front ++ back) =
      checkOTELColValues c identifier back := by
  induction front with
  | nil => rfl
  | cons v rest ih =>
    rw [checkOTELColValues_eq_none_iff] at h
    obtain ⟨hname, n, hinteger, hn⟩ := h v (List.mem_cons_self v rest)
    have hrest : checkOTELColValues c identifier rest = none :=
      (checkOTELColValues_eq_none_iff c identifier rest).mpr
        (fun w hw => h w (List.mem_cons_of_mem v hw))
    simp [checkOTELColValues, hname, hinteger, not_lt.mpr hn, ih hrest]

theorem checkCLFValues_cons_of_some (c : ProbeConstants) (identifier : ResourceIdentifier)
    (v : FeedbackValue) (back : List FeedbackValue) (e : ProbeError)
    (h : checkCLFValues c identifier [v] = some e) :
    checkCLFValues c identifier (v :: back) = some e := by
  by_cases hname : v.Name = c.clfProbeKey
  · cases hs : v.Value.String with
    | none => simpa [checkCLFValues, hname, hs] using h
    | some s =>
      by_cases htrue : s = "True"
      · simp [checkCLFValues, hname, hs, htrue] at h
      · simpa [checkCLFValues, hname, hs, htrue] using h
  · simpa [checkCLFValues, hname] using h

theorem checkOTELColValues_cons_of_some (c : ProbeConstants) (identifier : ResourceIdentifier)
    (v : FeedbackValue) (back : List FeedbackValue) (e : ProbeError)
    (h : checkOTELColValues c identifier [v] = some e) :
    checkOTELColValues c identifier (v :: back) = some e := by
  by_cases hname : v.Name = c.otelColProbeKey
  · cases hs : v.Value.Integer with
    | none => simpa [checkOTELColValues, hname, hs] using h
    | some n =>
      by_cases hn : n < 1
      · simpa [checkOTELColValues, hname, hs, hn] using h
      · simp [checkOTELColValues, hname, hs, hn] at h
  · simpa [checkOTELColValues, hname] using h

/-- C16: the checker stops at the first failing field: when every field of `fs` passes
its check and the check of `f` returns the error `e`, the checker returns `e` on
`fs ++ [f] ++ gs`, whatever `gs` is. Within a field of a known kind the first failing
value decides: when the values before `v` pass and `v` alone fails with `e`, the check
of the field returns `e`, whatever follows `v`. For the trace-collector case the two
resource names are different constants. -/
theorem HealthChecker_first_failure (c : ProbeConstants) :
    (∀ (fs gs : List ResultField) (f : ResultField) (e : ProbeError),
        (∀ g ∈ fs, checkField c g = none) → checkField c f = some e →
        HealthChecker c (fs ++ [f] ++ gs) = some e) ∧
      (∀ (f : ResultField) (front back : List FeedbackValue) (v : FeedbackValue)
          (e : ProbeError),
        f.FeedbackResult.Values = front ++ v :: back →
        ((f.ResourceIdentifier.Resource = c.ClusterLogForwardersResource ∧
            checkCLFValues c f.ResourceIdentifier front = none ∧
            checkCLFValues c f.ResourceIdentifier [v] = some e) ∨
          (c.ClusterLogForwardersResource ≠ c.OpenTelemetryCollectorsResource ∧
            f.ResourceIdentifier.Resource = c.OpenTelemetryCollectorsResource ∧
            checkOTELColValues c f.ResourceIdentifier front = none ∧
            checkOTELColValues c f.ResourceIdentifier [v] = some e)) →
        checkField c f = some e) := by
  constructor
  · intro fs gs f e hfs hf
    have hlen : (fs ++ [f] ++ gs).length ≠ 0 := by simp
    rw [HealthChecker, if_neg hlen, List.append_assoc, checkFields_append_of_none c fs _ hfs]
    exact checkFields_cons_of_some c f gs e hf
  · intro f front back v e hvalues hkind
    have hlen : ¬ (front ++ v :: back).length = 0 := by simp
    rcases hkind with ⟨hres, hfront, hv⟩ | ⟨hdistinct, hres, hfront, hv⟩
    · simp only [checkField, hvalues, hlen, if_false, hres, if_true]
      rw [checkCLFValues_append_of_none c _ front _ hfront]
      exact checkCLFValues_cons_of_some c _ v back e hv
    · have hne : ¬ c.OpenTelemetryCollectorsResource = c.ClusterLogForwardersResource :=
        fun h => hdistinct h.symm
      simp only [checkField, hvalues, hlen, if_false, hres, hne, if_true]
      rw [checkOTELColValues_append_of_none c _ front _ hfront]
      exact checkOTELColValues_cons_of_some c _ v back e hv

/-- C16 at a passing field and a field without values, followed by a log-forwarder field
whose second value is the first failing one, followed by a field of an unknown
resource: the error is the one of that value. -/
theorem HealthChecker_first_failure_witness :
    HealthChecker sampleConstants
        ([sampleField "opentelemetrycollectors" [integerValue "replicas" 1],
          sampleField "configmaps" []] ++
          [sampleField "clusterlogforwarders"
            [stringValue "isReady" "True", stringValue "isReady" "False",
             stringValue "other" "True"]] ++
          [sampleField "configmaps" [stringValue "isReady" "True"]]) =
      some ⟨.errProbeConditionNotSatisfied,
        "probe condition is not satisfied: clusterlogforwarders status condition type is False for ns/name"⟩ :=
  (HealthChecker_first_failure sampleConstants).1
    [sampleField "opentelemetrycollectors" [integerValue "replicas" 1],
     sampleField "configmaps" []]
    [sampleField "configmaps" [stringValue "isReady" "True"]]
    (sampleField "clusterlogforwarders"
      [stringValue "isReady" "True", stringValue "isReady" "False",
       stringValue "other" "True"])
    _ (by decide)
    ((HealthChecker_first_failure sampleConstants).2
      (sampleField "clusterlogforwarders"
        [stringValue "isReady" "True", stringValue "isReady" "False",
         stringValue "other" "True"])
      [stringValue "isReady" "True"] [stringValue "other" "True"]
      (stringValue "isReady" "False") _ rfl (Or.inl ⟨rfl, rfl, rfl⟩))

/-- C17: on a non-empty sequence in which no field has a value, the checker returns nil,
whatever the resource identifiers of the fields are. -/
theorem HealthChecker_no_values_healthy (c : ProbeConstants) (fields : List ResultField)
    (hne : fields ≠ []) (hall : ∀ f ∈ fields, f.FeedbackResult.Values = []) :
    HealthChecker c fields = none :=
  (HealthChecker_eq_none_iff c fields).mpr
    ⟨hne, fun f hf => checkField_of_no_values c f (hall f hf)⟩

/-- C17 at a field of an unknown resource and a log-forwarder field, both without
values. -/
theorem HealthChecker_no_values_healthy_witness :
    HealthChecker sampleConstants
      [sampleField "configmaps" [], sampleField "clusterlogforwarders" []] = none :=
  HealthChecker_no_values_healthy sampleConstants
    [sampleField "configmaps" [], sampleField "clusterlogforwarders" []]
    (by decide) (by decide)

theorem reason_checkCLFValues_congr (c : ProbeConstants) (id₁ id₂ : ResourceIdentifier)
    (vs ws : List FeedbackValue)
    (h : vs.map (readOfValue c c.ClusterLogForwardersResource) =
      ws.map (readOfValue c c.ClusterLogForwardersResource)) :
    reason (checkCLFValues c id₁ vs) = reason (checkCLFValues c id₂ ws) := by
  induction vs generalizing ws with
  | nil =>
    cases ws with
    | nil => rfl
    | cons w rest => simp at h
  | cons v rest ih =>
    cases ws with
    | nil => simp at h
    | cons w rest₂ =>
      simp only [List.map_cons, List.cons.injEq] at h
      obtain ⟨hread, hrest⟩ := h
      simp only [readOfValue, if_true, Prod.mk.injEq] at hread
      obtain ⟨hname, hstring, -⟩ := hread
      by_cases hkey : w.Name = c.clfProbeKey
      · cases hs : w.Value.String with
        | none => simp [checkCLFValues, hname, hstring, hkey, hs, reason, wrap]
        | some s =>
          by_cases htrue : s = "True"
          · simpa [checkCLFValues, hname, hstring, hkey, hs, htrue] using ih rest₂ hrest
          · simp [checkCLFValues, hname, hstring, hkey, hs, htrue, reason, wrap]
      · simp [checkCLFValues, hname, hkey, reason, wrap]

theorem reason_checkOTELColValues_congr (c : ProbeConstants) (id₁ id₂ : ResourceIdentifier)
    (vs ws : List FeedbackValue)
    (h : vs.map (readOfValue c c.OpenTelemetryCollectorsResource) =
      ws.map (readOfValue c c.OpenTelemetryCollectorsResource)) :
    reason (checkOTELColValues c id₁ vs) = reason (checkOTELColValues c id₂ ws) := by
  induction vs generalizing ws with
  | nil =>
    cases ws with
    | nil => rfl
    | cons w rest => simp at h
  | cons v rest ih =>
    cases ws with
    | nil => simp at h
    | cons w rest₂ =>
      simp only [List.map_cons, List.cons.injEq] at h
      obtain ⟨hread, hrest⟩ := h
      simp only [readOfValue, if_true, Prod.mk.injEq] at hread
      obtain ⟨hname, -, hinteger⟩ := hread
      by_cases hkey : w.Name = c.otelColProbeKey
      · cases hs : w.Value.Integer with
        | none => simp [checkOTELColValues, hname, hinteger, hkey, hs, reason, wrap]
        | some n =>
          by_cases hn : n < 1
          · simp [checkOTELColValues, hname, hinteger, hkey, hs, hn, reason, wrap]
          · simpa [checkOTELColValues, hname, hinteger, hkey, hs, hn] using ih rest₂ hrest
      · simp [checkOTELColValues, hname, hkey, reason, wrap]

theorem reason_checkField_congr (c : ProbeConstants) (f g : ResultField)
    (h : readOfField c f = readOfField c g) :
    reason (checkField c f) = reason (checkField c g) := by
  simp only [readOfField, Prod.mk.injEq] at h
  obtain ⟨hres, hvalues⟩ := h
  rw [← hres] at hvalues
  have hlen : f.FeedbackResult.Values.length = g.FeedbackResult.Values.length := by
    simpa using congrArg List.length hvalues
  by_cases hzero : g.FeedbackResult.Values.length = 0
  · simp [checkField, hlen, hzero]
  · by_cases hclf : g.ResourceIdentifier.Resource = c.ClusterLogForwardersResource
    · rw [hres, hclf] at hvalues
      simpa [checkField, hlen, hzero, hres, hclf] using
        reason_checkCLFValues_congr c f.ResourceIdentifier g.ResourceIdentifier _ _ hvalues
    · by_cases hotel : g.ResourceIdentifier.Resource = c.OpenTelemetryCollectorsResource
      · rw [hres, hotel] at hvalues
        have hne : ¬ c.OpenTelemetryCollectorsResource = c.ClusterLogForwardersResource :=
          fun heq => hclf (hotel.trans heq)
        simpa [checkField, hlen, hzero, hres, hotel, hne] using
          reason_checkOTELColValues_congr c f.ResourceIdentifier g.ResourceIdentifier _ _
            hvalues
      · simp [checkField, hlen, hzero, hres, hclf, hotel, reason, wrap]

theorem reason_checkFields_cons (c : ProbeConstants) (f : ResultField)
    (rest : List ResultField) :
    reason (checkFields c (f :: rest)) =
      match reason (checkField c f) with
      | some s => some s
      | none => reason (checkFields c rest) := by
  cases hf : checkField c f <;> simp [checkFields, hf, reason]

theorem reason_checkFields_congr (c : ProbeConstants) (fs gs : List ResultField)
    (h : fs.map (readOfField c) = gs.map (readOfField c)) :
    reason (checkFields c fs) = reason (checkFields c gs) := by
  induction fs generalizing gs with
  | nil =>
    cases gs with
    | nil => rfl
    | cons g rest => simp at h
  | cons f rest ih =>
    cases gs with
    | nil => simp at h
    | cons g rest₂ =>
      simp only [List.map_cons, List.cons.injEq] at h
      rw [reason_checkFields_cons, reason_checkFields_cons,
        reason_checkField_congr c f g h.1, ih rest₂ h.2]

/-- C18: the reason of the verdict depends only on what `readOfField` keeps of each
field: two sequences of fields that agree, position by position, on `Resource`, on the
`Name` of the values, on their `String` in a log-forwarder field and on their `Integer`
in a trace-collector field, get the same verdict, healthy or unhealthy with the same
reason, whatever `Group`, `Name`, `Namespace` and the other parts of the values are. So a
log-forwarder value that carries only an integer is reported as `errProbeValueIsNil`,
and so is a trace-collector value that carries only a string (the two resource names
being different constants). -/
theorem HealthChecker_reads_only (c : ProbeConstants) :
    (∀ fs gs : List ResultField, fs.map (readOfField c) = gs.map (readOfField c) →
        reason (HealthChecker c fs) = reason (HealthChecker c gs)) ∧
      (∀ (group name ns typ : GoString) (n : GoInt64) (b : Option Bool)
          (j : Option GoString),
        reason (HealthChecker c
          [{ ResourceIdentifier :=
               { Group := group, Resource := c.ClusterLogForwardersResource, Name := name,
                 Namespace := ns }
             FeedbackResult :=
               { Values := [{ Name := c.clfProbeKey
                              Value := { Typ := typ, Integer := some n, String := none,
                                         Boolean := b, JsonRaw := j } }] } }]) =
          some .errProbeValueIsNil) ∧
      (c.ClusterLogForwardersResource ≠ c.OpenTelemetryCollectorsResource →
        ∀ (group name ns typ s : GoString) (b : Option Bool) (j : Option GoString),
          reason (HealthChecker c
            [{ ResourceIdentifier :=
                 { Group := group, Resource := c.OpenTelemetryCollectorsResource,
                   Name := name, Namespace := ns }
               FeedbackResult :=
                 { Values := [{ Name := c.otelColProbeKey
                                Value := { Typ := typ, Integer := none, String := some s,
                                           Boolean := b, JsonRaw := j } }] } }]) =
            some .errProbeValueIsNil) := by
  refine ⟨fun fs gs h => ?_, ?_, ?_⟩
  · have hlen : fs.length = gs.length := by simpa using congrArg List.length h
    by_cases hzero : gs.length = 0
    · simp [HealthChecker, hlen, hzero]
    · simpa [HealthChecker, hlen, hzero] using reason_checkFields_congr c fs gs h
  · intro group name ns typ n b j
    simp [HealthChecker, checkFields, checkField, checkCLFValues, reason, wrap]
  · intro hdistinct group name ns typ s b j
    have hne : ¬ c.OpenTelemetryCollectorsResource = c.ClusterLogForwardersResource :=
      fun h => hdistinct h.symm
    simp [HealthChecker, checkFields, checkField, checkOTELColValues, hne, reason, wrap]

/-- C18 at two one-field sequences that differ in group, name, namespace, type tag,
integer, boolean and raw JSON of a log-forwarder value without a string: both are
reported as `errProbeValueIsNil`. -/
theorem HealthChecker_reads_only_witness :
    reason (HealthChecker sampleConstants
        [sampleField "clusterlogforwarders" [integerValue "isReady" 3]]) =
        reason (HealthChecker sampleConstants
          [{ ResourceIdentifier :=
               { Group := "observability.openshift.io", Resource := "clusterlogforwarders"
                 Name := "mcoa-instance", Namespace := "openshift-logging" }
             FeedbackResult :=
               { Values := [{ Name := "isReady"
                              Value := { Typ := "JsonRaw", Integer := none, String := none,
                                         Boolean := some true, JsonRaw := some "[]" } }] } }]) ∧
      reason (HealthChecker sampleConstants
        [sampleField "clusterlogforwarders" [integerValue "isReady" 3]]) =
        some .errProbeValueIsNil :=
  ⟨(HealthChecker_reads_only sampleConstants).1 _ _ (by decide),
    (HealthChecker_reads_only sampleConstants).2.1 "g" "name" "ns" "Integer" 3 none none⟩

theorem GetObjectKeys_loop_eq (group resource : GoString) (configRef : List ConfigReference)
    (keys : List ObjectKey) :
    GetObjectKeys.loop group resource configRef keys =
      keys ++ (configRef.filter (matchesGroupResource group resource)).map keyOf := by
  induction configRef generalizing keys with
  | nil => simp [GetObjectKeys.loop]
  | cons config rest ih =>
    by_cases hgroup : config.ConfigGroupResource.Group = group
    · by_cases hresource : config.ConfigGroupResource.Resource = resource
      · simp [GetObjectKeys.loop, hgroup, hresource, ih, matchesGroupResource, keyOf]
      · simp [GetObjectKeys.loop, hgroup, hresource, ih, matchesGroupResource]
    · simp [GetObjectKeys.loop, hgroup, ih, matchesGroupResource]

/-- C19: `GetObjectKeys` returns, in the order of the input, the name and namespace of
exactly those config references whose group is `group` and whose resource is
`resource`. Hence the number of keys is the number of matching references, the result is
empty exactly when no reference matches, and nothing is merged: the keys of a
concatenation are the keys of its parts, one after the other, and a reference that
matches and occurs twice gives its key twice. -/
theorem GetObjectKeys_eq_filter_map (configRef : List ConfigReference)
    (group resource : GoString) :
    GetObjectKeys configRef group resource =
        (configRef.filter (fun config =>
          decide (config.ConfigGroupResource.Group = group) &&
            decide (config.ConfigGroupResource.Resource = resource))).map
          (fun config =>
            { Name := config.ConfigReferent.Name
              Namespace := config.ConfigReferent.Namespace }) ∧
      (GetObjectKeys configRef group resource).length =
        configRef.countP (matchesGroupResource group resource) ∧
      (GetObjectKeys configRef group resource = [] ↔
        ∀ config ∈ configRef,
          ¬ (config.ConfigGroupResource.Group = group ∧
            config.ConfigGroupResource.Resource = resource)) ∧
      (∀ other : List ConfigReference,
        GetObjectKeys (configRef ++ other) group resource =
          GetObjectKeys configRef group resource ++ GetObjectKeys other group resource) ∧
      (∀ config : ConfigReference, matchesGroupResource group resource config = true →
        GetObjectKeys [config, config] group resource = [keyOf config, keyOf config]) := by
  have hkeys : ∀ refs : List ConfigReference, GetObjectKeys refs group resource =
      (refs.filter (matchesGroupResource group resource)).map keyOf := by
    intro refs
    simp [GetObjectKeys, GetObjectKeys_loop_eq]
  refine ⟨hkeys configRef, ?_, ?_, ?_, ?_⟩
  · rw [hkeys, List.length_map, List.countP_eq_length_filter]
  · rw [hkeys]
    simp [List.filter_eq_nil_iff, matchesGroupResource]
  · intro other
    simp [hkeys, List.filter_append]
  · intro config hmatch
    simp [hkeys, List.filter, hmatch]

end Addon

namespace Manifests

/-! ## The logging values: auxiliary facts -/

theorem buildUnmangedValues_disabled (k : Collaborators) (opts : k.Options)
    (h : k.UnmanagedCollectionEnabled opts = false) :
    buildUnmangedValues k opts = (UnmanagedValues.zero, none) := by
  simp [buildUnmangedValues, h]

theorem buildUnmangedValues_enabled (k : Collaborators) (opts : k.Options)
    (u : UnmanagedValues) (err : Option k.Error)
    (henabled : k.UnmanagedCollectionEnabled opts = true)
    (h : buildUnmangedValues k opts = (u, err)) : u.Collection.Enabled = true := by
  unfold buildUnmangedValues at h
  simp only [henabled, Bool.not_true, Bool.false_eq_true, if_false] at h
  repeat' split at h
  all_goals
    cases h
    rfl

theorem buildMangedValues_disabled (k : Collaborators) (opts : k.Options)
    (h : k.DefaultStackEnabled opts = false) :
    buildMangedValues k opts = (ManagedValues.zero, none) := by
  simp [buildMangedValues, h]

theorem buildMangedValues_collection_spoke (k : Collaborators) (opts : k.Options)
    (m₀ m : ManagedValues) (err : Option k.Error) (hhub : k.IsHubCluster opts = false)
    (h : buildMangedValues.collection k opts m₀ = (m, err)) :
    m.Collection.Enabled = true ∧ m.Storage = m₀.Storage := by
  unfold buildMangedValues.collection at h
  simp only [hhub, Bool.not_false, if_true] at h
  repeat' split at h
  all_goals
    cases h
    exact ⟨rfl, rfl⟩

theorem buildMangedValues_collection_hub (k : Collaborators) (opts : k.Options)
    (m₀ : ManagedValues) (hhub : k.IsHubCluster opts = true) :
    buildMangedValues.collection k opts m₀ = (m₀, none) := by
  simp [buildMangedValues.collection, hhub]

theorem buildMangedValues_storage_hub (k : Collaborators) (opts : k.Options)
    (m₀ m : ManagedValues) (err : Option k.Error) (hhub : k.IsHubCluster opts = true)
    (h : buildMangedValues.storage k opts m₀ = (m, err)) :
    m.Storage.Enabled = true ∧ m.Collection = m₀.Collection := by
  unfold buildMangedValues.storage at h
  simp only [hhub, if_true] at h
  repeat' split at h
  all_goals
    cases h
    exact ⟨rfl, rfl⟩

theorem buildMangedValues_storage_spoke (k : Collaborators) (opts : k.Options)
    (m₀ : ManagedValues) (hhub : k.IsHubCluster opts = false) :
    buildMangedValues.storage k opts m₀ = (m₀, none) := by
  simp [buildMangedValues.storage, hhub]

theorem buildMangedValues_enabled (k : Collaborators) (opts : k.Options)
    (m : ManagedValues) (h : buildMangedValues k opts = (m, none)) :
    m.Collection.Enabled = (k.DefaultStackEnabled opts && !k.IsHubCluster opts) ∧
      m.Storage.Enabled = (k.DefaultStackEnabled opts && k.IsHubCluster opts) := by
  cases hdefault : k.DefaultStackEnabled opts with
  | false =>
    rw [buildMangedValues_disabled k opts hdefault] at h
    cases h
    simp [ManagedValues.zero, CollectionValues.zero, StorageValues.zero]
  | true =>
    unfold buildMangedValues at h
    simp only [hdefault, Bool.not_true, Bool.false_eq_true, if_false] at h
    cases hhub : k.IsHubCluster opts with
    | false =>
      cases hc : buildMangedValues.collection k opts ManagedValues.zero with
      | mk m₁ e₁ =>
        obtain ⟨hen, hst⟩ := buildMangedValues_collection_spoke k opts _ m₁ e₁ hhub hc
        rw [hc] at h
        cases e₁ with
        | some e => simp at h
        | none =>
          simp only [buildMangedValues_storage_spoke k opts m₁ hhub] at h
          cases h
          simp [hen, hst, ManagedValues.zero, StorageValues.zero]
    | true =>
      rw [buildMangedValues_collection_hub k opts _ hhub] at h
      simp only at h
      cases hs : buildMangedValues.storage k opts ManagedValues.zero with
      | mk m₁ e₁ =>
        obtain ⟨hen, hcol⟩ := buildMangedValues_storage_hub k opts _ m₁ e₁ hhub hs
        rw [hs] at h
        cases e₁ with
        | some e => simp at h
        | none =>
          cases h
          simp [hen, hcol, ManagedValues.zero, CollectionValues.zero]

theorem BuildValues_eq_some (k : Collaborators) (opts : k.Options) (values : LoggingValues)
    (err : Option k.Error) (h : BuildValues k opts = (some values, err)) :
    err = none ∧
      buildUnmangedValues k opts = (values.Unmanaged, none) ∧
      buildMangedValues k opts = (values.Managed, none) ∧
      values.Enabled = enabledLogging k opts ∧
      values.OpenshiftLoggingChannel = k.buildSubscriptionChannel opts := by
  unfold BuildValues at h
  cases hu : buildUnmangedValues k opts with
  | mk u eu =>
    rw [hu] at h
    cases eu with
    | some e => simp at h
    | none =>
      cases hm : buildMangedValues k opts with
      | mk m em =>
        rw [hm] at h
        cases em with
        | some e => simp at h
        | none =>
          simp only [Prod.mk.injEq, Option.some.injEq] at h
          obtain ⟨hv, he⟩ := h
          subst hv
          exact ⟨he.symm, rfl, rfl, rfl, rfl⟩

/-! ## The logging values: the claims -/

/-- C9: when `BuildValues` succeeds, the top-level `Enabled` of the returned document is
`opts.UnmanagedCollectionEnabled() || opts.DefaultStackEnabled()`. -/
theorem BuildValues_enabled (k : Collaborators) (opts : k.Options) (values : LoggingValues)
    (h : BuildValues k opts = (some values, none)) :
    values.Enabled = (k.UnmanagedCollectionEnabled opts || k.DefaultStackEnabled opts) :=
  (BuildValues_eq_some k opts values none h).2.2.2.1

/-- C9 at scenario D with the sample collaborators: `BuildValues` succeeds and the
document is enabled. -/
theorem BuildValues_enabled_witness :
    BuildValues sampleCollaborators scenarioD = (some scenarioDDocument, none) ∧
      scenarioDDocument.Enabled =
        (sampleCollaborators.UnmanagedCollectionEnabled scenarioD ||
          sampleCollaborators.DefaultStackEnabled scenarioD) :=
  ⟨rfl, BuildValues_enabled sampleCollaborators scenarioD scenarioDDocument rfl⟩

/-- C10: when `BuildValues` succeeds, `Unmanaged.Collection.Enabled` is
`UnmanagedCollectionEnabled()`, `Managed.Collection.Enabled` is `DefaultStackEnabled()`
and not `IsHubCluster`, and `Managed.Storage.Enabled` is `DefaultStackEnabled()` and
`IsHubCluster`. In particular, with unmanaged collection only on a spoke (scenario C) the
document and its unmanaged collection are enabled and both managed sub-sections are
disabled, and with the default stack only on the hub (scenario D) the managed storage is
enabled and the managed collection is disabled. -/
theorem BuildValues_sections_enabled (k : Collaborators) (opts : k.Options)
    (values : LoggingValues) (h : BuildValues k opts = (some values, none)) :
    values.Unmanaged.Collection.Enabled = k.UnmanagedCollectionEnabled opts ∧
      values.Managed.Collection.Enabled =
        (k.DefaultStackEnabled opts && !k.IsHubCluster opts) ∧
      values.Managed.Storage.Enabled =
        (k.DefaultStackEnabled opts && k.IsHubCluster opts) ∧
      (k.UnmanagedCollectionEnabled opts = true → k.DefaultStackEnabled opts = false →
        k.IsHubCluster opts = false →
        values.Enabled = true ∧ values.Unmanaged.Collection.Enabled = true ∧
          values.Managed.Collection.Enabled = false ∧
          values.Managed.Storage.Enabled = false) ∧
      (k.UnmanagedCollectionEnabled opts = false → k.DefaultStackEnabled opts = true →
        k.IsHubCluster opts = true →
        values.Managed.Storage.Enabled = true ∧
          values.Managed.Collection.Enabled = false) := by
  obtain ⟨-, hu, hm, hen, -⟩ := BuildValues_eq_some k opts values none h
  obtain ⟨hcol, hsto⟩ := buildMangedValues_enabled k opts values.Managed hm
  have hunm : values.Unmanaged.Collection.Enabled = k.UnmanagedCollectionEnabled opts := by
    cases hflag : k.UnmanagedCollectionEnabled opts with
    | false =>
      rw [buildUnmangedValues_disabled k opts hflag] at hu
      have hzero : values.Unmanaged = UnmanagedValues.zero := (congrArg Prod.fst hu).symm
      rw [hzero]
      rfl
    | true => exact buildUnmangedValues_enabled k opts values.Unmanaged none hflag hu
  refine ⟨hunm, hcol, hsto, ?_, ?_⟩
  · intro h1 h2 h3
    simp [hunm, hcol, hsto, hen, enabledLogging, h1, h2, h3]
  · intro h1 h2 h3
    simp [hcol, hsto, h2, h3]

/-- C10 at scenario C with the sample collaborators. -/
theorem BuildValues_sections_enabled_witness :
    BuildValues sampleCollaborators scenarioC = (some scenarioCDocument, none) ∧
      scenarioCDocument.Enabled = true ∧
      scenarioCDocument.Unmanaged.Collection.Enabled = true ∧
      scenarioCDocument.Managed.Collection.Enabled = false ∧
      scenarioCDocument.Managed.Storage.Enabled = false :=
  ⟨rfl,
    (BuildValues_sections_enabled sampleCollaborators scenarioC scenarioCDocument
      rfl).2.2.2.1 rfl rfl rfl⟩

theorem buildMangedValues_disabled_sections (k : Collaborators) (opts : k.Options)
    (m : ManagedValues) (h : buildMangedValues k opts = (m, none)) :
    ((k.DefaultStackEnabled opts && !k.IsHubCluster opts) = false →
        m.Collection = CollectionValues.zero) ∧
      ((k.DefaultStackEnabled opts && k.IsHubCluster opts) = false →
        m.Storage = StorageValues.zero) := by
  cases hdefault : k.DefaultStackEnabled opts with
  | false =>
    rw [buildMangedValues_disabled k opts hdefault] at h
    cases h
    simp [ManagedValues.zero]
  | true =>
    unfold buildMangedValues at h
    simp only [hdefault, Bool.not_true, Bool.false_eq_true, if_false] at h
    cases hhub : k.IsHubCluster opts with
    | false =>
      cases hc : buildMangedValues.collection k opts ManagedValues.zero with
      | mk m₁ e₁ =>
        obtain ⟨-, hst⟩ := buildMangedValues_collection_spoke k opts _ m₁ e₁ hhub hc
        rw [hc] at h
        cases e₁ with
        | some e => simp at h
        | none =>
          simp only [buildMangedValues_storage_spoke k opts m₁ hhub] at h
          cases h
          simp [hst, ManagedValues.zero]
    | true =>
      rw [buildMangedValues_collection_hub k opts _ hhub] at h
      simp only at h
      cases hs : buildMangedValues.storage k opts ManagedValues.zero with
      | mk m₁ e₁ =>
        obtain ⟨-, hcol⟩ := buildMangedValues_storage_hub k opts _ m₁ e₁ hhub hs
        rw [hs] at h
        cases e₁ with
        | some e => simp at h
        | none =>
          cases h
          simp [hcol, ManagedValues.zero]

theorem BuildValues_unmanaged_section (k : Collaborators) (opts : k.Options)
    (values : LoggingValues) (h : BuildValues k opts = (some values, none)) :
    values.Unmanaged.Collection.Enabled = k.UnmanagedCollectionEnabled opts ∧
      (k.UnmanagedCollectionEnabled opts = false →
        values.Unmanaged = UnmanagedValues.zero) := by
  obtain ⟨-, hu, -, -, -⟩ := BuildValues_eq_some k opts values none h
  cases hflag : k.UnmanagedCollectionEnabled opts with
  | false =>
    rw [buildUnmangedValues_disabled k opts hflag] at hu
    have hzero : values.Unmanaged = UnmanagedValues.zero := (congrArg Prod.fst hu).symm
    exact ⟨by rw [hzero]; rfl, fun _ => hzero⟩
  | true =>
    exact ⟨buildUnmangedValues_enabled k opts values.Unmanaged none hflag hu,
      fun hfalse => by cases hfalse⟩

theorem BuildValues_managed_sections (k : Collaborators) (opts : k.Options)
    (values : LoggingValues) (h : BuildValues k opts = (some values, none)) :
    values.Managed.Collection.Enabled =
        (k.DefaultStackEnabled opts && !k.IsHubCluster opts) ∧
      values.Managed.Storage.Enabled =
        (k.DefaultStackEnabled opts && k.IsHubCluster opts) ∧
      ((k.DefaultStackEnabled opts && !k.IsHubCluster opts) = false →
        values.Managed.Collection = CollectionValues.zero) ∧
      ((k.DefaultStackEnabled opts && k.IsHubCluster opts) = false →
        values.Managed.Storage = StorageValues.zero) := by
  obtain ⟨-, -, hm, -, -⟩ := BuildValues_eq_some k opts values none h
  obtain ⟨hcol, hsto⟩ := buildMangedValues_enabled k opts values.Managed hm
  obtain ⟨hcz, hsz⟩ := buildMangedValues_disabled_sections k opts values.Managed hm
  exact ⟨hcol, hsto, hcz, hsz⟩

/-- C11: in a document returned by a successful `BuildValues`, a sub-section that is not
enabled is empty: for `Unmanaged.Collection` and for `Managed.Collection`, the secrets and
config maps are empty and `CLFSpec` and `CLFAnnotations` are the empty string; for
`Managed.Storage`, the secrets are empty and `LSSpec` is the empty string. -/
theorem BuildValues_disabled_empty (k : Collaborators) (opts : k.Options)
    (values : LoggingValues) (h : BuildValues k opts = (some values, none)) :
    (values.Unmanaged.Collection.Enabled = false →
        values.Unmanaged.Collection.Secrets = [] ∧
          values.Unmanaged.Collection.ConfigMaps = [] ∧
          values.Unmanaged.Collection.CLFSpec = "" ∧
          values.Unmanaged.Collection.CLFAnnotations = "") ∧
      (values.Managed.Collection.Enabled = false →
        values.Managed.Collection.Secrets = [] ∧
          values.Managed.Collection.ConfigMaps = [] ∧
          values.Managed.Collection.CLFSpec = "" ∧
          values.Managed.Collection.CLFAnnotations = "") ∧
      (values.Managed.Storage.Enabled = false →
        values.Managed.Storage.Secrets = [] ∧ values.Managed.Storage.LSSpec = "") := by
  obtain ⟨hunm, huz⟩ := BuildValues_unmanaged_section k opts values h
  obtain ⟨hcol, hsto, hcz, hsz⟩ := BuildValues_managed_sections k opts values h
  refine ⟨fun hoff => ?_, fun hoff => ?_, fun hoff => ?_⟩
  · rw [huz (hunm ▸ hoff)]
    exact ⟨rfl, rfl, rfl, rfl⟩
  · rw [hcz (hcol ▸ hoff)]
    exact ⟨rfl, rfl, rfl, rfl⟩
  · rw [hsz (hsto ▸ hoff)]
    exact ⟨rfl, rfl⟩

/-- C11 at `bothOnHub` with the sample collaborators: the managed collection is the
disabled sub-section and it is empty, next to two populated ones. -/
theorem BuildValues_disabled_empty_witness :
    BuildValues sampleCollaborators bothOnHub = (some bothOnHubDocument, none) ∧
      bothOnHubDocument.Managed.Collection.Enabled = false ∧
      bothOnHubDocument.Managed.Collection.Secrets = [] ∧
      bothOnHubDocument.Managed.Collection.ConfigMaps = [] ∧
      bothOnHubDocument.Managed.Collection.CLFSpec = "" ∧
      bothOnHubDocument.Managed.Collection.CLFAnnotations = "" :=
  ⟨rfl, rfl,
    (BuildValues_disabled_empty sampleCollaborators bothOnHub bothOnHubDocument rfl).2.1 rfl⟩

/-- C12: when `UnmanagedCollectionEnabled()` and `DefaultStackEnabled()` are both false,
`BuildValues` succeeds whatever the helpers return, and the document has `Enabled` false
and both sections at their zero value: every sub-section disabled, with empty secrets and
config maps and empty spec and annotation strings. -/
theorem BuildValues_nothing_enabled (k : Collaborators) (opts : k.Options)
    (hunmanaged : k.UnmanagedCollectionEnabled opts = false)
    (hdefault : k.DefaultStackEnabled opts = false) :
    BuildValues k opts =
      (some { Enabled := false
              OpenshiftLoggingChannel := k.buildSubscriptionChannel opts
              Unmanaged :=
                { Collection :=
                    { Enabled := false, CLFAnnotations := "", CLFSpec := "", Secrets := [],
                      ConfigMaps := [] } }
              Managed :=
                { Collection :=
                    { Enabled := false, CLFAnnotations := "", CLFSpec := "", Secrets := [],
                      ConfigMaps := [] }
                  Storage := { Enabled := false, Secrets := [], LSSpec := "" } } }, none) := by
  simp [BuildValues, buildUnmangedValues_disabled k opts hunmanaged,
    buildMangedValues_disabled k opts hdefault, enabledLogging, hunmanaged, hdefault,
    UnmanagedValues.zero, ManagedValues.zero, CollectionValues.zero, StorageValues.zero]

/-- C12 at `nothingEnabled` with the sample collaborators, whose `buildConfigMaps`
would fail. -/
theorem BuildValues_nothing_enabled_witness :
    sampleCollaborators.buildConfigMaps nothingEnabled = .error "buildConfigMaps failed" ∧
      BuildValues sampleCollaborators nothingEnabled = (some (emptyDocument "stable"), none) :=
  ⟨rfl, BuildValues_nothing_enabled sampleCollaborators nothingEnabled rfl rfl⟩

theorem firstError_append {ε : Type} (front back : List (Option ε)) :
    firstError (front ++ back) =
      match firstError front with
      | some err => some err
      | none => firstError back := by
  induction front with
  | nil => rfl
  | cons step rest ih =>
    cases step with
    | none => simpa [firstError] using ih
    | some err => simp [firstError]

theorem firstError_eq_none_iff {ε : Type} (steps : List (Option ε)) :
    firstError steps = none ↔ ∀ step ∈ steps, step = none := by
  induction steps with
  | nil => simp [firstError]
  | cons step rest ih =>
    cases step with
    | none => simp [firstError, ih]
    | some err => simp [firstError]

theorem buildUnmangedValues_error (k : Collaborators) (opts : k.Options) :
    (buildUnmangedValues k opts).2 =
      if k.UnmanagedCollectionEnabled opts then firstError (unmanagedSteps k opts)
      else none := by
  cases hflag : k.UnmanagedCollectionEnabled opts with
  | false => simp [buildUnmangedValues, hflag]
  | true =>
    cases h1 : k.buildConfigMaps opts <;> cases h2 : k.buildSecrets opts <;>
      cases h3 : k.marshalAnnotations (k.GetAnnotations opts) <;>
      cases h4 : k.buildClusterLogForwarderSpec opts <;>
      simp [buildUnmangedValues, hflag, h1, h2, h3, h4, unmanagedSteps, firstError,
        stepError, marshalStepError]
    split <;> rename_i h5 <;> simp [h5, stepError, firstError]

theorem buildMangedValues_collection_error (k : Collaborators) (opts : k.Options)
    (m₀ : ManagedValues) (hhub : k.IsHubCluster opts = false) :
    (buildMangedValues.collection k opts m₀).2 =
      firstError (managedCollectionSteps k opts) := by
  cases h1 : k.buildManagedCollectionConfigMaps opts <;>
    cases h2 : k.buildManagedCollectionSecrets opts <;>
    cases h3 : k.buildManagedCLFSpec opts <;>
    simp [buildMangedValues.collection, hhub, h1, h2, h3, managedCollectionSteps,
      firstError, stepError, marshalStepError]
  split <;> rename_i h4 <;> simp [h4, stepError, firstError]

theorem buildMangedValues_storage_error (k : Collaborators) (opts : k.Options)
    (m₀ : ManagedValues) (hhub : k.IsHubCluster opts = true) :
    (buildMangedValues.storage k opts m₀).2 = firstError (managedStorageSteps k opts) := by
  cases h1 : k.buildManagedStorageSecrets opts <;>
    cases h2 : k.buildManagedLokistackSpec opts <;>
    simp [buildMangedValues.storage, hhub, h1, h2, managedStorageSteps, firstError,
      stepError, marshalStepError]
  split <;> rename_i h3 <;> simp [h3, stepError, firstError]

theorem buildMangedValues_error (k : Collaborators) (opts : k.Options) :
    (buildMangedValues k opts).2 =
      if k.DefaultStackEnabled opts then
        (if k.IsHubCluster opts then firstError (managedStorageSteps k opts)
         else firstError (managedCollectionSteps k opts))
      else none := by
  cases hdefault : k.DefaultStackEnabled opts with
  | false => simp [buildMangedValues, hdefault]
  | true =>
    cases hhub : k.IsHubCluster opts with
    | false =>
      have hc := buildMangedValues_collection_error k opts ManagedValues.zero hhub
      cases hres : buildMangedValues.collection k opts ManagedValues.zero with
      | mk m₁ e₁ =>
        rw [hres] at hc
        cases e₁ with
        | some e =>
          simp [buildMangedValues, hdefault, hres]
          exact hc
        | none =>
          simp [buildMangedValues, hdefault, hres,
            buildMangedValues_storage_spoke k opts m₁ hhub]
          exact hc
    | true =>
      have hs := buildMangedValues_storage_error k opts ManagedValues.zero hhub
      cases hres : buildMangedValues.storage k opts ManagedValues.zero with
      | mk m₁ e₁ =>
        rw [hres] at hs
        cases e₁ with
        | some e =>
          simp [buildMangedValues, hdefault,
            buildMangedValues_collection_hub k opts _ hhub, hres]
          exact hs
        | none =>
          simp [buildMangedValues, hdefault,
            buildMangedValues_collection_hub k opts _ hhub, hres]
          exact hs

theorem BuildValues_error (k : Collaborators) (opts : k.Options) :
    (BuildValues k opts).2 =
        (match (buildUnmangedValues k opts).2 with
         | some err => some err
         | none => (buildMangedValues k opts).2) ∧
      ((BuildValues k opts).1 = none ↔ (BuildValues k opts).2 ≠ none) := by
  unfold BuildValues
  cases hu : buildUnmangedValues k opts with
  | mk u eu =>
    cases eu with
    | some e => simp
    | none =>
      cases hm : buildMangedValues k opts with
      | mk m em =>
        cases em with
        | some e => simp
        | none => simp

theorem activeSteps_firstError (k : Collaborators) (opts : k.Options) :
    firstError (activeSteps k opts) =
      match (buildUnmangedValues k opts).2 with
      | some err => some err
      | none => (buildMangedValues k opts).2 := by
  rw [activeSteps, firstError_append, buildUnmangedValues_error, buildMangedValues_error]
  cases k.UnmanagedCollectionEnabled opts <;> cases k.DefaultStackEnabled opts <;>
    cases k.IsHubCluster opts <;> simp [firstError] <;>
    cases firstError (unmanagedSteps k opts) <;> rfl

/-- C13: the error that `BuildValues` returns is the error of the first failing step of
the active branches (unmanaged branch first, then the active managed branch; a step
after a failing one does not run) and nil when none of them fails; the document is nil
exactly when one of these steps fails, and the error is nil exactly when all of them
succeed. The helpers of the inactive branches do not occur in `activeSteps`. -/
theorem BuildValues_error_iff (k : Collaborators) (opts : k.Options) :
    (BuildValues k opts).2 = firstError (activeSteps k opts) ∧
      ((BuildValues k opts).1 = none ↔ ∃ err, some err ∈ activeSteps k opts) ∧
      ((BuildValues k opts).2 = none ↔ ∀ step ∈ activeSteps k opts, step = none) := by
  obtain ⟨herr, hdoc⟩ := BuildValues_error k opts
  have hfirst : (BuildValues k opts).2 = firstError (activeSteps k opts) := by
    rw [herr, activeSteps_firstError]
  refine ⟨hfirst, ?_, ?_⟩
  · rw [hdoc, hfirst, Ne, firstError_eq_none_iff]
    constructor
    · intro hnot
      by_contra hex
      apply hnot
      intro step hstep
      cases step with
      | none => rfl
      | some err => exact absurd ⟨err, hstep⟩ hex
    · rintro ⟨err, hmem⟩ hall
      cases hall _ hmem
  · rw [hfirst, firstError_eq_none_iff]

/-- C14: in a document returned by a successful `BuildValues`, the managed collection and
the managed storage are never both enabled, and exactly one of them is enabled when
`DefaultStackEnabled()` holds; and when `UnmanagedCollectionEnabled()` holds as well, the
unmanaged collection is enabled together with the active managed sub-section: the
managed collection on a spoke, the managed storage on the hub. -/
theorem BuildValues_managed_exclusive (k : Collaborators) (opts : k.Options)
    (values : LoggingValues) (h : BuildValues k opts = (some values, none)) :
    ¬ (values.Managed.Collection.Enabled = true ∧ values.Managed.Storage.Enabled = true) ∧
      (k.DefaultStackEnabled opts = true →
        (values.Managed.Collection.Enabled = true ∧
            values.Managed.Storage.Enabled = false) ∨
          (values.Managed.Collection.Enabled = false ∧
            values.Managed.Storage.Enabled = true)) ∧
      (k.UnmanagedCollectionEnabled opts = true → k.DefaultStackEnabled opts = true →
        values.Unmanaged.Collection.Enabled = true ∧
          (k.IsHubCluster opts = false → values.Managed.Collection.Enabled = true) ∧
          (k.IsHubCluster opts = true → values.Managed.Storage.Enabled = true)) := by
  obtain ⟨hunm, -⟩ := BuildValues_unmanaged_section k opts values h
  obtain ⟨hcol, hsto, -, -⟩ := BuildValues_managed_sections k opts values h
  rw [hunm, hcol, hsto]
  cases k.UnmanagedCollectionEnabled opts <;> cases k.DefaultStackEnabled opts <;>
    cases k.IsHubCluster opts <;> simp

/-- C14 at the sample collaborators with both flags set, on a spoke and on the hub: both
builds succeed, and the unmanaged collection is enabled next to the managed collection,
respectively next to the managed storage. -/
theorem BuildValues_managed_exclusive_witness :
    (BuildValues sampleCollaborators bothOnSpoke = (some bothOnSpokeDocument, none) ∧
        bothOnSpokeDocument.Unmanaged.Collection.Enabled = true ∧
        bothOnSpokeDocument.Managed.Collection.Enabled = true ∧
        ¬ (bothOnSpokeDocument.Managed.Collection.Enabled = true ∧
            bothOnSpokeDocument.Managed.Storage.Enabled = true)) ∧
      (BuildValues sampleCollaborators bothOnHub = (some bothOnHubDocument, none) ∧
        bothOnHubDocument.Unmanaged.Collection.Enabled = true ∧
        bothOnHubDocument.Managed.Storage.Enabled = true ∧
        ¬ (bothOnHubDocument.Managed.Collection.Enabled = true ∧
            bothOnHubDocument.Managed.Storage.Enabled = true)) :=
  ⟨⟨rfl,
      ((BuildValues_managed_exclusive sampleCollaborators bothOnSpoke bothOnSpokeDocument
        rfl).2.2 rfl rfl).1,
      ((BuildValues_managed_exclusive sampleCollaborators bothOnSpoke bothOnSpokeDocument
        rfl).2.2 rfl rfl).2.1 rfl,
      (BuildValues_managed_exclusive sampleCollaborators bothOnSpoke bothOnSpokeDocument
        rfl).1⟩,
    ⟨rfl,
      ((BuildValues_managed_exclusive sampleCollaborators bothOnHub bothOnHubDocument
        rfl).2.2 rfl rfl).1,
      ((BuildValues_managed_exclusive sampleCollaborators bothOnHub bothOnHubDocument
        rfl).2.2 rfl rfl).2.2 rfl,
      (BuildValues_managed_exclusive sampleCollaborators bothOnHub bothOnHubDocument
        rfl).1⟩⟩

/-- C15, the claim as stated fails: with unmanaged collection and the default stack both
enabled on a spoke, `BuildValues` succeeds with the sample collaborators and the
document has two enabled sub-sections, the unmanaged collection and the managed
collection. -/
theorem two_sections_enabled :
    sampleCollaborators.UnmanagedCollectionEnabled bothOnSpoke = true ∧
      sampleCollaborators.DefaultStackEnabled bothOnSpoke = true ∧
      sampleCollaborators.IsHubCluster bothOnSpoke = false ∧
      BuildValues sampleCollaborators bothOnSpoke = (some bothOnSpokeDocument, none) ∧
      bothOnSpokeDocument.Unmanaged.Collection.Enabled = true ∧
      bothOnSpokeDocument.Managed.Collection.Enabled = true ∧
      bothOnSpokeDocument.Managed.Storage.Enabled = false :=
  ⟨rfl, rfl, rfl, rfl, rfl, rfl, rfl⟩

/-- C15, amended: in a document returned by a successful `BuildValues` for options on
which `UnmanagedCollectionEnabled()` and `DefaultStackEnabled()` do not both hold, at most
one of the unmanaged collection, the managed collection and the managed storage is
enabled. -/
theorem BuildValues_at_most_one_section (k : Collaborators) (opts : k.Options)
    (values : LoggingValues) (h : BuildValues k opts = (some values, none))
    (hnotboth : ¬ (k.UnmanagedCollectionEnabled opts = true ∧
      k.DefaultStackEnabled opts = true)) :
    ¬ (values.Unmanaged.Collection.Enabled = true ∧
        values.Managed.Collection.Enabled = true) ∧
      ¬ (values.Unmanaged.Collection.Enabled = true ∧
        values.Managed.Storage.Enabled = true) ∧
      ¬ (values.Managed.Collection.Enabled = true ∧
        values.Managed.Storage.Enabled = true) := by
  obtain ⟨hunm, -⟩ := BuildValues_unmanaged_section k opts values h
  obtain ⟨hcol, hsto, -, -⟩ := BuildValues_managed_sections k opts values h
  rw [hunm, hcol, hsto]
  revert hnotboth
  cases k.UnmanagedCollectionEnabled opts <;> cases k.DefaultStackEnabled opts <;>
    cases k.IsHubCluster opts <;> simp

/-- C15, amended, at scenario D with the sample collaborators: only the managed storage
is enabled. -/
theorem BuildValues_at_most_one_section_witness :
    BuildValues sampleCollaborators scenarioD = (some scenarioDDocument, none) ∧
      scenarioDDocument.Managed.Storage.Enabled = true ∧
      ¬ (scenarioDDocument.Unmanaged.Collection.Enabled = true ∧
        scenarioDDocument.Managed.Storage.Enabled = true) ∧
      ¬ (scenarioDDocument.Managed.Collection.Enabled = true ∧
        scenarioDDocument.Managed.Storage.Enabled = true) :=
  ⟨rfl, rfl,
    (BuildValues_at_most_one_section sampleCollaborators scenarioD scenarioDDocument rfl
      (fun hboth => Bool.noConfusion hboth.1)).2⟩

end Manifests
